import Mathlib

/-!
Verification of the `tsc-plugins` systemd adapter core (the `systemd-services`
and `systemd-timers` crates): identifier validation, control-plane output
parsing, schedule interpretation, and execution-history aggregation.

The Rust sources are shallowly embedded: pure functions become Lean functions,
process execution is modelled by passing an executor function
`String → List String → Except ε CommandOutput` and collecting the trace of
invocations each client operation performs, and machine integers become
`Nat`/`Int` with the bounds checks that the Rust parsing functions perform.
-/

namespace TscPlugins

/-! ## Generic string helpers mirroring the Rust `str` operations used. -/

/-- `Option`-valued exact prefix removal, as Rust `str::strip_prefix`. -/
def stripPfx? (p : List Char) (l : List Char) : Option (List Char) :=
  match p, l with
  | [], l => some l
  | _ :: _, [] => none
  | a :: ps, c :: cs => if c = a then stripPfx? ps cs else none

/-- Whether `p` occurs as a contiguous substring of `l` (Rust `str::contains`). -/
def hasSubstr (l : List Char) (p : List Char) : Bool :=
  match l with
  | [] => p.isEmpty
  | _ :: cs => ((stripPfx? p l).isSome : Bool) || hasSubstr cs p

/-- Index of the first occurrence of `p` in `l` (Rust `str::find`). -/
def findSubstr? (l : List Char) (p : List Char) : Option Nat :=
  match l with
  | [] => if p.isEmpty then some 0 else none
  | _ :: cs =>
    if (stripPfx? p l).isSome then some 0
    else (findSubstr? cs p).map (· + 1)

/-- String-level substring containment (Rust `str::contains` with a `&str` pattern). -/
def strHas (s : String) (pat : String) : Bool :=
  hasSubstr s.toList pat.toList

/-- String-level `strip_prefix`. -/
def strStripPfx? (pat : String) (s : String) : Option String :=
  (stripPfx? pat.toList s.toList).map List.asString

/-- Rust `str::strip_suffix`. -/
def strStripSfx? (pat : String) (s : String) : Option String :=
  (stripPfx? pat.toList.reverse s.toList.reverse).map (fun r => r.reverse.asString)

/-- Rust `str::starts_with` / `str::ends_with` / `str::is_empty`, and `trim`,
defined over the character list so that they evaluate by reduction. -/
def strStartsWith (s p : String) : Bool :=
  (stripPfx? p.toList s.toList).isSome

def strEndsWith (s p : String) : Bool :=
  (stripPfx? p.toList.reverse s.toList.reverse).isSome

def strIsEmpty (s : String) : Bool :=
  s.toList.isEmpty

def strTrim (s : String) : String :=
  (((s.toList.dropWhile Char.isWhitespace).reverse.dropWhile Char.isWhitespace).reverse).asString

/-- `String.intercalate`, by folding `++`. -/
def joinSep (sep : String) : List String → String
  | [] => ""
  | [x] => x
  | x :: xs => x ++ sep ++ joinSep sep xs

/-- Rust `str::split` with a nonempty string separator (also the behaviour of
`String.splitOn`); the fuel dominates the scan length. -/
def splitOnAux (sep : List Char) : Nat → List Char → List Char → List (List Char)
  | _, [], acc => [acc.reverse]
  | 0, l, acc => [acc.reverse ++ l]
  | fuel + 1, c :: cs, acc =>
    match stripPfx? sep (c :: cs) with
    | some rest => acc.reverse :: splitOnAux sep fuel rest []
    | none => splitOnAux sep fuel cs (c :: acc)

def strSplitOn (s sep : String) : List String :=
  if sep.toList.isEmpty then [s]
  else (splitOnAux sep.toList (s.toList.length + 1) s.toList []).map List.asString

/-- Repeatedly strip the (reversed) pattern from the front of a reversed
character list; the fuel dominates the number of rounds. -/
def trimEndStrAux (patRev : List Char) : Nat → List Char → List Char
  | 0, l => l
  | fuel + 1, l =>
    match stripPfx? patRev l with
    | some l' => trimEndStrAux patRev fuel l'
    | none => l

/-- Rust `str::trim_end_matches` with a string pattern: repeatedly remove the
suffix while it is present (for the nonempty patterns used in the source). -/
def trimEndStr (s : String) (pat : String) : String :=
  if pat.toList.isEmpty then s
  else (trimEndStrAux pat.toList.reverse (s.toList.length + 1) s.toList.reverse).reverse.asString

/-- Rust `str::trim_end_matches` with a char pattern. -/
def trimEndChar (s : String) (c : Char) : String :=
  (s.toList.reverse.dropWhile (· = c)).reverse.asString

/-- Rust `str::lines`: split on `'\n'`, drop a final empty segment, and strip a
trailing `'\r'` from each line. -/
def rustLines (s : String) : List String :=
  let parts := strSplitOn s "\n"
  let parts := if parts.getLast? = some "" then parts.dropLast else parts
  parts.map (fun l => if strEndsWith l "\r" then l.toList.dropLast.asString else l)

/-- Rust `str::split_whitespace`: maximal runs of non-whitespace characters.
`acc` holds the (reversed) run currently being scanned. -/
def splitWsAux : List Char → List Char → List (List Char)
  | [], acc => if acc.isEmpty then [] else [acc.reverse]
  | c :: cs, acc =>
    if c.isWhitespace then
      if acc.isEmpty then splitWsAux cs [] else acc.reverse :: splitWsAux cs []
    else splitWsAux cs (c :: acc)

def splitWs (s : String) : List String :=
  (splitWsAux s.toList []).map List.asString

/-! ## Decimal numeral parsing as performed by Rust's `FromStr` for integers. -/

def digitsToNat (ds : List Char) : Nat :=
  ds.foldl (fun n c => 10 * n + (c.toNat - '0'.toNat)) 0

/-- Parse an optional `'+'` sign followed by one or more ASCII digits
(Rust unsigned-integer `from_str`), checking the type's upper bound. -/
def parseUnsigned? (s : String) (maxVal : Nat) : Option Nat :=
  let ds :=
    match s.toList with
    | '+' :: ds => some ds
    | ds => some ds
  match ds with
  | some ds =>
    if ds ≠ [] ∧ ds.all Char.isDigit then
      let n := digitsToNat ds
      if n ≤ maxVal then some n else none
    else none
  | none => none

/-- Parse an optional sign followed by one or more ASCII digits
(Rust signed-integer `from_str`), checking the type's bounds. -/
def parseSigned? (s : String) (lo hi : Int) : Option Int :=
  let parts : Option (Bool × List Char) :=
    match s.toList with
    | '+' :: ds => some (false, ds)
    | '-' :: ds => some (true, ds)
    | ds => some (false, ds)
  match parts with
  | some (neg, ds) =>
    if ds ≠ [] ∧ ds.all Char.isDigit then
      let n : Int := (digitsToNat ds : Int)
      let v := if neg then -n else n
      if lo ≤ v ∧ v ≤ hi then some v else none
    else none
  | none => none

/-- Lexicographic order on character lists by code point, matching Rust's
`Ord for String` (bytewise UTF-8 comparison agrees with code-point order). -/
def lexLe : List Char → List Char → Bool
  | [], _ => true
  | _ :: _, [] => false
  | a :: as, b :: bs =>
    if a.toNat < b.toNat then true
    else if b.toNat < a.toNat then false
    else lexLe as bs

theorem lexLe_total : ∀ a b : List Char, lexLe a b = true ∨ lexLe b a = true := by
  intro a
  induction a with
  | nil => intro b; left; rfl
  | cons x xs ih =>
    intro b
    cases b with
    | nil => right; rfl
    | cons y ys =>
      by_cases h1 : x.toNat < y.toNat
      · left; simp [lexLe, h1]
      · by_cases h2 : y.toNat < x.toNat
        · right; simp [lexLe, h2]
        · rcases ih ys with h | h
          · left; simp [lexLe, h1, h2, h]
          · right; simp [lexLe, h1, h2, h]

theorem lexLe_trans : ∀ a b c : List Char,
    lexLe a b = true → lexLe b c = true → lexLe a c = true := by
  intro a
  induction a with
  | nil => intro b c _ _; rfl
  | cons x xs ih =>
    intro b c hab hbc
    cases b with
    | nil => simp [lexLe] at hab
    | cons y ys =>
      cases c with
      | nil => simp [lexLe] at hbc
      | cons z zs =>
        simp only [lexLe] at hab hbc ⊢
        by_cases hxy : x.toNat < y.toNat
        · by_cases hyz : y.toNat < z.toNat
          · have hxz : x.toNat < z.toNat := by omega
            simp [hxz]
          · by_cases hzy : z.toNat < y.toNat
            · simp [hyz, hzy] at hbc
            · have hxz : x.toNat < z.toNat := by omega
              simp [hxz]
        · by_cases hyx : y.toNat < x.toNat
          · simp [hxy, hyx] at hab
          · simp only [if_neg hxy, if_neg hyx] at hab
            by_cases hyz : y.toNat < z.toNat
            · have hxz : x.toNat < z.toNat := by omega
              simp [hxz]
            · by_cases hzy : z.toNat < y.toNat
              · simp [hyz, hzy] at hbc
              · simp only [if_neg hyz, if_neg hzy] at hbc
                have hxz : ¬ x.toNat < z.toNat := by omega
                have hzx : ¬ z.toNat < x.toNat := by omega
                simp [hxz, hzx, ih ys zs hab hbc]

def u64Max : Nat := 2 ^ 64 - 1
def i64Min : Int := -(2 ^ 63)
def i64Max : Int := 2 ^ 63 - 1
def i32Min : Int := -(2 ^ 31)
def i32Max : Int := 2 ^ 31 - 1

/-! ## Civil (proleptic Gregorian) date rendering, modelling
`chrono::DateTime::from_timestamp` followed by `format("%Y-%m-%d %H:%M:%S")`. -/

/-- Days since 1970-01-01 to `(year, month, day)`. -/
def civilFromDays (days : Int) : Int × Int × Int :=
  let z := days + 719468
  let era := z.ediv 146097
  let doe := z.emod 146097
  let yoe := (doe - doe.ediv 1460 + doe.ediv 36524 - doe.ediv 146096).ediv 365
  let y := yoe + era * 400
  let doy := doe - (365 * yoe + yoe.ediv 4 - yoe.ediv 100)
  let mp := (5 * doy + 2).ediv 153
  let d := doy - (153 * mp + 2).ediv 5 + 1
  let m := if mp < 10 then mp + 3 else mp - 9
  (if m ≤ 2 then y + 1 else y, m, d)

def padNum (width : Nat) (n : Nat) : String :=
  let s := toString n
  if s.length < width then (List.replicate (width - s.length) '0').asString ++ s else s

def formatYear (y : Int) : String :=
  if y < 0 then "-" ++ padNum 4 (-y).toNat else padNum 4 y.toNat

/-- chrono's timestamp range check (years representable by `NaiveDate`). -/
def chronoSecsOk (secs : Int) : Bool :=
  let y := (civilFromDays (secs.ediv 86400)).1
  decide (-262144 ≤ y ∧ y ≤ 262143)

/-- Render a Unix timestamp (seconds) as `%Y-%m-%d %H:%M:%S` in UTC. -/
def formatCivil (secs : Int) : String :=
  let days := secs.ediv 86400
  let sod := (secs.emod 86400).toNat
  let ymd := civilFromDays days
  formatYear ymd.1 ++ "-" ++ padNum 2 ymd.2.1.toNat ++ "-" ++ padNum 2 ymd.2.2.toNat ++
    " " ++ padNum 2 (sod / 3600) ++ ":" ++ padNum 2 (sod % 3600 / 60) ++ ":" ++
    padNum 2 (sod % 60)

/-! ## JSON values and a parser modelling `serde_json::from_str`. -/

inductive Json where
  | null
  | bool (b : Bool)
  | num (raw : String)
  | str (s : String)
  | arr (elems : List Json)
  | obj (fields : List (String × Json))

def isJsonWs (c : Char) : Bool :=
  c = ' ' || c = '\t' || c = '\n' || c = '\r'

def skipWs (l : List Char) : List Char :=
  l.dropWhile isJsonWs

def hexVal? (c : Char) : Option Nat :=
  if '0' ≤ c ∧ c ≤ '9' then some (c.toNat - '0'.toNat)
  else if 'a' ≤ c ∧ c ≤ 'f' then some (c.toNat - 'a'.toNat + 10)
  else if 'A' ≤ c ∧ c ≤ 'F' then some (c.toNat - 'A'.toNat + 10)
  else none

def hex4? (a b c d : Char) : Option Nat := do
  let va ← hexVal? a
  let vb ← hexVal? b
  let vc ← hexVal? c
  let vd ← hexVal? d
  return ((va * 16 + vb) * 16 + vc) * 16 + vd

/-- Lex the body of a JSON string (after the opening quote), handling escapes
and surrogate pairs as `serde_json` does; raw control characters are invalid. -/
def lexStrBody (acc : List Char) (l : List Char) : Option (List Char × List Char) :=
  match l with
  | [] => none
  | '"' :: rest => some (acc.reverse, rest)
  | '\\' :: e :: rest =>
    match e with
    | '"' => lexStrBody ('"' :: acc) rest
    | '\\' => lexStrBody ('\\' :: acc) rest
    | '/' => lexStrBody ('/' :: acc) rest
    | 'b' => lexStrBody ('\x08' :: acc) rest
    | 'f' => lexStrBody ('\x0c' :: acc) rest
    | 'n' => lexStrBody ('\n' :: acc) rest
    | 'r' => lexStrBody ('\r' :: acc) rest
    | 't' => lexStrBody ('\t' :: acc) rest
    | 'u' =>
      match rest with
      | a :: b :: c :: d :: rest2 =>
        match hex4? a b c d with
        | none => none
        | some v =>
          if v < 0xD800 ∨ 0xDFFF < v then
            if h : v.isValidChar then lexStrBody (Char.ofNatAux v h :: acc) rest2 else none
          else if v < 0xDC00 then
            match rest2 with
            | '\\' :: 'u' :: a2 :: b2 :: c2 :: d2 :: rest3 =>
              match hex4? a2 b2 c2 d2 with
              | none => none
              | some w =>
                if 0xDC00 ≤ w ∧ w ≤ 0xDFFF then
                  let cp := 0x10000 + (v - 0xD800) * 0x400 + (w - 0xDC00)
                  if h : cp.isValidChar then lexStrBody (Char.ofNatAux cp h :: acc) rest3
                  else none
                else none
            | _ => none
          else none
      | _ => none
    | _ => none
  | c :: rest =>
    if c.toNat < 0x20 then none else lexStrBody (c :: acc) rest
termination_by l.length
decreasing_by all_goals simp_all <;> omega

/-- Lex a JSON number starting at `l` (which begins with `'-'` or a digit in a
valid document); returns the raw lexeme. Grammar:
`-? (0 | [1-9][0-9]*) (. [0-9]+)? ([eE][+-]?[0-9]+)?`. -/
def lexNumber? (l : List Char) : Option (String × List Char) :=
  let signPart : List Char × List Char :=
    match l with
    | '-' :: rest => (['-'], rest)
    | _ => ([], l)
  let sign := signPart.1
  let afterSign := signPart.2
  let intPart? : Option (List Char × List Char) :=
    match afterSign with
    | '0' :: rest => some (['0'], rest)
    | c :: rest =>
      if c.isDigit ∧ c ≠ '0' then
        some (c :: rest.takeWhile Char.isDigit, rest.dropWhile Char.isDigit)
      else none
    | [] => none
  match intPart? with
  | none => none
  | some (ip, afterInt) =>
    let fracPart? : Option (List Char × List Char) :=
      match afterInt with
      | '.' :: rest =>
        let ds := rest.takeWhile Char.isDigit
        if ds.isEmpty then none else some ('.' :: ds, rest.dropWhile Char.isDigit)
      | _ => some ([], afterInt)
    match fracPart? with
    | none => none
    | some (fp, afterFrac) =>
      let expPart? : Option (List Char × List Char) :=
        match afterFrac with
        | e :: rest =>
          if e = 'e' ∨ e = 'E' then
            let signRest : List Char × List Char :=
              match rest with
              | s :: rest2 => if s = '+' ∨ s = '-' then ([e, s], rest2) else ([e], rest)
              | [] => ([e], [])
            let ds := signRest.2.takeWhile Char.isDigit
            if ds.isEmpty then none
            else some (signRest.1 ++ ds, signRest.2.dropWhile Char.isDigit)
          else some ([], afterFrac)
        | [] => some ([], [])
      match expPart? with
      | none => none
      | some (ep, afterExp) =>
        some ((sign ++ ip ++ fp ++ ep).asString, afterExp)

mutual

/-- Parse one JSON value (after skipping leading whitespace). -/
def pVal : Nat → List Char → Option (Json × List Char)
  | 0, _ => none
  | fuel + 1, cs =>
    match skipWs cs with
    | 'n' :: 'u' :: 'l' :: 'l' :: r => some (.null, r)
    | 't' :: 'r' :: 'u' :: 'e' :: r => some (.bool true, r)
    | 'f' :: 'a' :: 'l' :: 's' :: 'e' :: r => some (.bool false, r)
    | '"' :: r => (lexStrBody [] r).map (fun p => (.str p.1.asString, p.2))
    | '[' :: r =>
      (match skipWs r with
       | ']' :: r2 => some (.arr [], r2)
       | r2 => (pElems fuel r2).map (fun p => (.arr p.1, p.2)))
    | '{' :: r =>
      (match skipWs r with
       | '}' :: r2 => some (.obj [], r2)
       | r2 => (pFields fuel r2).map (fun p => (.obj p.1, p.2)))
    | cs' =>
      match cs' with
      | c :: _ =>
        if c = '-' ∨ c.isDigit then (lexNumber? cs').map (fun p => (.num p.1, p.2))
        else none
      | [] => none

/-- Parse the elements of a nonempty JSON array up to the closing bracket. -/
def pElems : Nat → List Char → Option (List Json × List Char)
  | 0, _ => none
  | fuel + 1, cs => do
    let (v, r) ← pVal fuel cs
    match skipWs r with
    | ',' :: r2 => do
      let (vs, r3) ← pElems fuel r2
      return (v :: vs, r3)
    | ']' :: r2 => return ([v], r2)
    | _ => none

/-- Parse the fields of a nonempty JSON object up to the closing brace. -/
def pFields : Nat → List Char → Option (List (String × Json) × List Char)
  | 0, _ => none
  | fuel + 1, cs =>
    match skipWs cs with
    | '"' :: r => do
      let (k, r1) ← lexStrBody [] r
      match skipWs r1 with
      | ':' :: r2 => do
        let (v, r3) ← pVal fuel r2
        match skipWs r3 with
        | ',' :: r4 => do
          let (fs, r5) ← pFields fuel r4
          return ((k.asString, v) :: fs, r5)
        | '}' :: r4 => return ([(k.asString, v)], r4)
        | _ => none
      | _ => none
    | _ => none

end

/-- `serde_json::from_str`: the whole input must be one JSON value surrounded
only by whitespace. The fuel `2 * length + 2` dominates the parser's call
depth, which consumes at least one character per two calls. -/
def jsonFromStr (s : String) : Option Json :=
  match pVal (2 * s.toList.length + 2) s.toList with
  | some (v, rest) => if skipWs rest = [] then some v else none
  | none => none

/-- Look a key up in a JSON value as `serde_json::Value`'s string index does:
`Null` for non-objects and missing keys; for duplicate keys the last
occurrence wins (parsing into a map overwrites earlier entries). -/
def jsonIndex (j : Json) (key : String) : Json :=
  match j with
  | .obj fs =>
    match fs.reverse.find? (fun kv => kv.1 = key) with
    | some kv => kv.2
    | none => .null
  | _ => .null

def jsonAsStr : Json → Option String
  | .str s => some s
  | _ => none

/-! ## Civil-date inverse and an RFC 3339 parser modelling
`chrono::DateTime::parse_from_rfc3339`. -/

def daysFromCivil (y m d : Int) : Int :=
  let y2 := if m ≤ 2 then y - 1 else y
  let era := y2.fdiv 400
  let yoe := y2 - era * 400
  let mp := if 2 < m then m - 3 else m + 9
  let doy := (153 * mp + 2).ediv 5 + d - 1
  let doe := yoe * 365 + yoe.ediv 4 - yoe.ediv 100 + doy
  era * 146097 + doe - 719468

def isLeapYear (y : Int) : Bool :=
  (y.emod 4 = 0 && y.emod 100 ≠ 0) || y.emod 400 = 0

def daysInMonth (y m : Int) : Int :=
  if m = 2 then (if isLeapYear y then 29 else 28)
  else if m = 4 ∨ m = 6 ∨ m = 9 ∨ m = 11 then 30
  else 31

/-- Parse an RFC 3339 date-time into Unix seconds (the fractional part is
validated but dropped; a leap second `:60` maps into second 59 as chrono
represents it). Returns `none` exactly when chrono would reject the text. -/
def rfc3339Parse? (s : String) : Option Int :=
  match s.toList with
  | y1 :: y2 :: y3 :: y4 :: '-' :: m1 :: m2 :: '-' :: d1 :: d2 :: t :: h1 :: h2 :: ':' ::
      mi1 :: mi2 :: ':' :: s1 :: s2 :: rest =>
    if (t = 'T' ∨ t = 't') ∧
        [y1, y2, y3, y4, m1, m2, d1, d2, h1, h2, mi1, mi2, s1, s2].all Char.isDigit then
      let y : Int := (digitsToNat [y1, y2, y3, y4] : Nat)
      let mo : Int := (digitsToNat [m1, m2] : Nat)
      let da : Int := (digitsToNat [d1, d2] : Nat)
      let hh : Nat := digitsToNat [h1, h2]
      let mi : Nat := digitsToNat [mi1, mi2]
      let ss : Nat := digitsToNat [s1, s2]
      let afterFrac? : Option (List Char) :=
        match rest with
        | '.' :: r =>
          if (r.takeWhile Char.isDigit).isEmpty then none
          else some (r.dropWhile Char.isDigit)
        | _ => some rest
      match afterFrac? with
      | none => none
      | some r2 =>
        let offset? : Option Int :=
          match r2 with
          | ['Z'] => some 0
          | ['z'] => some 0
          | [sg, o1, o2, ':', o3, o4] =>
            if (sg = '+' ∨ sg = '-') ∧ [o1, o2, o3, o4].all Char.isDigit then
              let oh := digitsToNat [o1, o2]
              let om := digitsToNat [o3, o4]
              if oh ≤ 23 ∧ om ≤ 59 then
                let v : Int := (oh * 3600 + om * 60 : Nat)
                some (if sg = '-' then -v else v)
              else none
            else none
          | _ => none
        match offset? with
        | none => none
        | some off =>
          if 1 ≤ mo ∧ mo ≤ 12 ∧ 1 ≤ da ∧ da ≤ daysInMonth y mo ∧
              hh ≤ 23 ∧ mi ≤ 59 ∧ ss ≤ 60 then
            some (daysFromCivil y mo da * 86400 + (hh * 3600 + mi * 60 + min ss 59 : Nat) - off)
          else none
    else none
  | _ => none

/-- `chrono::DateTime::from_timestamp secs nanos` modelled at the resolution
the adapter observes: in-range timestamps survive, out-of-range yield `none`. -/
def dtFromTimestamp (secs : Int) (nanos : Nat) : Option (Int × Nat) :=
  if chronoSecsOk secs && nanos < 2000000000 then some (secs, nanos) else none

/-! ## `systemd-services` crate: error type, command output, validator,
parsers of `systemctl`/`journalctl` output, and the client operations. -/

namespace Services

/-- `ServiceError` from `src/error.rs`. -/
inductive ServiceError where
  | serviceNotFound (msg : String)
  | permissionDenied (msg : String)
  | invalidServiceName (msg : String)
  | parseError (msg : String)
  | timeout (msg : String)
  | commandFailed (command : String) (exit_code : Int) (stderr : String)
  | ioError (msg : String)
  | other (msg : String)
deriving DecidableEq

/-- `CommandOutput` from `src/systemctl/executor.rs`. -/
structure CommandOutput where
  exit_code : Int
  stdout : String
  stderr : String
deriving DecidableEq

/-- A command executor: the dynamic behaviour behind the `CommandExecutor`
trait, as a function from a program and argument vector to its outcome. -/
def Executor := String → List String → Except ServiceError CommandOutput

/-- A trace of the process invocations a client operation performed. -/
def Trace := List (String × List String)

/-- The character class of the validator's regex `^[a-zA-Z0-9@._-]+$`. -/
def isServiceNameChar (c : Char) : Bool :=
  ('a' ≤ c && c ≤ 'z') || ('A' ≤ c && c ≤ 'Z') || ('0' ≤ c && c ≤ '9') ||
    c = '@' || c = '.' || c = '_' || c = '-'

/-- `validate_service_name` from `src/systemctl/mod.rs`. -/
def validate_service_name (name : String) : Except ServiceError Unit :=
  if strIsEmpty name then
    .error (.invalidServiceName "Service name cannot be empty")
  else if name.toList.contains ' ' then
    .error (.invalidServiceName ("Service name cannot contain spaces: " ++ name))
  else if ¬ (name.toList.all isServiceNameChar) then
    .error (.invalidServiceName ("Service name contains invalid characters: " ++ name))
  else
    .ok ()

/-- `ServiceInfo` from `src/systemctl/mod.rs`. -/
structure ServiceInfo where
  name : String
  description : String
  load_state : String
  active_state : String
  sub_state : String
deriving DecidableEq

/-- `ServiceStatus`; the `chrono` timestamp is modelled as Unix seconds. -/
structure ServiceStatus where
  name : String
  active_state : String
  sub_state : String
  uptime_seconds : Nat
  main_pid : Option Nat
  active_enter_timestamp : Option Int
deriving DecidableEq

/-- `LogEntry`; the timestamp is modelled as `(seconds, nanoseconds)`. -/
structure LogEntry where
  timestamp : Int × Nat
  message : String
  priority : Nat
deriving DecidableEq

/-- `parse_service_list` from `src/systemctl/parser.rs`. -/
def parse_service_list (output : String) : Except ServiceError (List ServiceInfo) :=
  .ok ((rustLines output).foldl (fun acc line =>
    let line := strTrim line
    if strIsEmpty line then acc
    else
      let parts := splitWs line
      if parts.length < 4 then acc
      else
        acc ++ [{ name := parts.getD 0 ""
                  load_state := parts.getD 1 ""
                  active_state := parts.getD 2 ""
                  sub_state := parts.getD 3 ""
                  description := joinSep " " (parts.drop 4) }]) [])

/-- Rust `str::split_once('=')`. -/
def splitOnceEq? (l : String) : Option (String × String) :=
  match findSubstr? l.toList ['='] with
  | some i => some ((l.toList.take i).asString, (l.toList.drop (i + 1)).asString)
  | none => none

/-- The accumulating state of `parse_service_status`'s line loop. -/
structure StatusAcc where
  active_state : Option String
  sub_state : Option String
  main_pid : Option Nat
  active_enter_timestamp : Option Int

def statusStep (acc : StatusAcc) (line : String) : StatusAcc :=
  match splitOnceEq? (strTrim line) with
  | none => acc
  | some (key, value) =>
    if key = "ActiveState" then { acc with active_state := some value }
    else if key = "SubState" then { acc with sub_state := some value }
    else if key = "MainPID" then
      match parseUnsigned? value (2 ^ 32 - 1) with
      | some pid => if pid ≠ 0 then { acc with main_pid := some pid } else acc
      | none => acc
    else if key = "ActiveEnterTimestamp" then
      if ¬ strIsEmpty value then
        match rfc3339Parse? value with
        | some secs => { acc with active_enter_timestamp := some secs }
        | none =>
          match parseSigned? value i64Min i64Max with
          | some ts =>
            let secs := ts.tdiv 1000000
            match dtFromTimestamp secs 0 with
            | some dt => { acc with active_enter_timestamp := some dt.1 }
            | none => acc
          | none => acc
      else acc
    else acc

/-- `parse_service_status` from `src/systemctl/parser.rs`; `now` is the wall
clock (Unix seconds) read for the uptime computation. -/
def parse_service_status (service_name : String) (output : String) (now : Int) :
    Except ServiceError ServiceStatus :=
  let acc := (rustLines output).foldl statusStep
    { active_state := none, sub_state := none, main_pid := none,
      active_enter_timestamp := none }
  match acc.active_state with
  | none => .error (.parseError "Missing ActiveState in systemctl output")
  | some active_state =>
    match acc.sub_state with
    | none => .error (.parseError "Missing SubState in systemctl output")
    | some sub_state =>
      let uptime_seconds :=
        match acc.active_enter_timestamp with
        | some enter => (max 0 (now - enter)).toNat
        | none => 0
      .ok { name := service_name, active_state, sub_state, uptime_seconds,
            main_pid := acc.main_pid,
            active_enter_timestamp := acc.active_enter_timestamp }

/-- One line of `parse_logs`: field extraction from a parsed JSON value. -/
def logEntryOfJson (j : Json) (now : Int × Nat) : LogEntry :=
  let message := (jsonAsStr (jsonIndex j "MESSAGE")).getD ""
  let priority :=
    ((jsonAsStr (jsonIndex j "PRIORITY")).bind (fun s => parseUnsigned? s 255)).getD 6
  let timestamp :=
    match jsonAsStr (jsonIndex j "__REALTIME_TIMESTAMP") with
    | some ts_str =>
      match parseSigned? ts_str i64Min i64Max with
      | some micros =>
        let secs := micros.tdiv 1000000
        let nanos := ((micros.tmod 1000000) * 1000).emod (2 ^ 32)
        match dtFromTimestamp secs nanos.toNat with
        | some dt => dt
        | none => now
      | none => now
    | none => now
  { timestamp, message, priority }

/-- `parse_logs` from `src/systemctl/parser.rs`: line-delimited JSON; the
first line that is not valid JSON fails the whole call. -/
def parse_logs_go (now : Int × Nat) : List String → Except ServiceError (List LogEntry)
  | [] => .ok []
  | l :: rest =>
    let t := strTrim l
    if strIsEmpty t then parse_logs_go now rest
    else
      match jsonFromStr t with
      | none => .error (.parseError "Invalid JSON in journalctl output")
      | some j =>
        match parse_logs_go now rest with
        | .error e => .error e
        | .ok tail => .ok (logEntryOfJson j now :: tail)

def parse_logs (output : String) (now : Int × Nat) : Except ServiceError (List LogEntry) :=
  parse_logs_go now (rustLines output)

/-- `parse_systemctl_error` from `src/systemctl/mod.rs`. -/
def parse_systemctl_error (output : CommandOutput) : ServiceError :=
  if output.exit_code = 4 then .permissionDenied output.stderr
  else if output.exit_code = 5 then .serviceNotFound output.stderr
  else .commandFailed "systemctl" output.exit_code output.stderr

/-- `parse_journalctl_error` from `src/systemctl/mod.rs`. -/
def parse_journalctl_error (output : CommandOutput) : ServiceError :=
  if strHas output.stderr "not found" || strHas output.stderr "does not exist" then
    .serviceNotFound output.stderr
  else .commandFailed "journalctl" output.exit_code output.stderr

/-- `get_service_status`: validate, run `systemctl show`, parse. The second
component is the trace of executor invocations. -/
def get_service_status (ex : Executor) (service_name : String) (now : Int) :
    Except ServiceError ServiceStatus × Trace :=
  match validate_service_name service_name with
  | .error e => (.error e, [])
  | .ok _ =>
    let args := ["show", service_name,
      "--property=ActiveState,SubState,MainPID,ActiveEnterTimestamp"]
    match ex "systemctl" args with
    | .error e => (.error e, [("systemctl", args)])
    | .ok out => (parse_service_status service_name out.stdout now, [("systemctl", args)])

/-- `start_service`. -/
def start_service (ex : Executor) (service_name : String) :
    Except ServiceError Unit × Trace :=
  match validate_service_name service_name with
  | .error e => (.error e, [])
  | .ok _ =>
    match ex "systemctl" ["start", service_name] with
    | .error e => (.error e, [("systemctl", ["start", service_name])])
    | .ok out =>
      (if out.exit_code ≠ 0 then .error (parse_systemctl_error out) else .ok (),
       [("systemctl", ["start", service_name])])

/-- `stop_service`. -/
def stop_service (ex : Executor) (service_name : String) :
    Except ServiceError Unit × Trace :=
  match validate_service_name service_name with
  | .error e => (.error e, [])
  | .ok _ =>
    match ex "systemctl" ["stop", service_name] with
    | .error e => (.error e, [("systemctl", ["stop", service_name])])
    | .ok out =>
      (if out.exit_code ≠ 0 then .error (parse_systemctl_error out) else .ok (),
       [("systemctl", ["stop", service_name])])

/-- `restart_service`. -/
def restart_service (ex : Executor) (service_name : String) :
    Except ServiceError Unit × Trace :=
  match validate_service_name service_name with
  | .error e => (.error e, [])
  | .ok _ =>
    match ex "systemctl" ["restart", service_name] with
    | .error e => (.error e, [("systemctl", ["restart", service_name])])
    | .ok out =>
      (if out.exit_code ≠ 0 then .error (parse_systemctl_error out) else .ok (),
       [("systemctl", ["restart", service_name])])

/-- `get_logs` from `src/systemctl/mod.rs`. -/
def get_logs (ex : Executor) (service_name : String) (lines : Nat) (now : Int × Nat) :
    Except ServiceError (List LogEntry) × Trace :=
  match validate_service_name service_name with
  | .error e => (.error e, [])
  | .ok _ =>
    let args := ["-u", service_name, "-n", toString lines, "--no-pager", "--output=json"]
    match ex "journalctl" args with
    | .error e => (.error e, [("journalctl", args)])
    | .ok out =>
      (if out.exit_code ≠ 0 then
        if strHas out.stderr "No journal files were found" ||
            strHas out.stderr "No entries" then
          .ok []
        else
          .error (parse_journalctl_error out)
      else
        parse_logs out.stdout now,
       [("journalctl", args)])

end Services

/-! ## `systemd-timers` crate. -/

namespace Timers

/-- `TimerError` from `src/error.rs`. -/
inductive TimerError where
  | notFound (name : String)
  | commandFailed (command : String) (stderr : String) (exit_code : Option Int)
  | parseError (source : String) (reason : String)
  | invalidInput (msg : String)
  | permissionDenied (msg : String)
  | ioError (msg : String)
  | jsonError (msg : String)
deriving DecidableEq

/-- `CommandOutput` from `src/command.rs` (same shape as the services crate's). -/
structure CommandOutput where
  stdout : String
  stderr : String
  exit_code : Int
deriving DecidableEq

def Executor := String → List String → Except TimerError CommandOutput

def Trace := List (String × List String)

/-! ### `src/schedule.rs` -/

/-- The `Schedule` sum type. -/
inductive Schedule where
  | calendar (expression : String)
  | onBoot (seconds : Nat)
  | recurring (seconds : Nat)
  | multiple (schedules : List Schedule)

/-- `Schedule::parse_time_span`. -/
def parse_time_span (expr : String) : Except TimerError Nat :=
  let expr := strTrim expr
  if strEndsWith expr "min" || strEndsWith expr "m" then
    let num_str := trimEndChar (trimEndStr expr "min") 'm'
    match parseUnsigned? num_str u64Max with
    | some minutes => .ok (minutes * 60)
    | none => .error (.parseError "time_span" ("Invalid minutes: " ++ expr))
  else if strEndsWith expr "hour" || strEndsWith expr "hours" || strEndsWith expr "h" then
    let num_str := trimEndChar (trimEndStr (trimEndStr expr "hours") "hour") 'h'
    match parseUnsigned? num_str u64Max with
    | some hours => .ok (hours * 3600)
    | none => .error (.parseError "time_span" ("Invalid hours: " ++ expr))
  else if strEndsWith expr "sec" || strEndsWith expr "s" then
    let num_str := trimEndChar (trimEndStr expr "sec") 's'
    match parseUnsigned? num_str u64Max with
    | some seconds => .ok seconds
    | none => .error (.parseError "time_span" ("Invalid seconds: " ++ expr))
  else
    match parseUnsigned? expr u64Max with
    | some seconds => .ok seconds
    | none => .error (.parseError "time_span" ("Invalid time span: " ++ expr))

/-- `Schedule::parse`. -/
def Schedule.parse (on_calendar on_boot on_active : Option String) :
    Except TimerError Schedule := do
  let s1 : List Schedule :=
    match on_calendar with
    | some expr => [.calendar expr]
    | none => []
  let s2 : List Schedule ←
    match on_boot with
    | some expr => do
      let seconds ← parse_time_span expr
      pure [.onBoot seconds]
    | none => pure []
  let s3 : List Schedule ←
    match on_active with
    | some expr => do
      let seconds ← parse_time_span expr
      pure [.recurring seconds]
    | none => pure []
  match s1 ++ s2 ++ s3 with
  | [] => .error (.parseError "schedule" "No schedule information found")
  | [s] => .ok s
  | ss => .ok (.multiple ss)

/-- `Schedule::humanize_duration`. -/
def humanize_duration (seconds : Nat) : String :=
  if seconds < 60 then toString seconds ++ "s"
  else if seconds < 3600 then
    let minutes := seconds / 60
    let secs := seconds % 60
    if secs = 0 then toString minutes ++ "min"
    else toString minutes ++ "min " ++ toString secs ++ "s"
  else if seconds < 86400 then
    let hours := seconds / 3600
    let minutes := seconds % 3600 / 60
    if minutes = 0 then toString hours ++ "h"
    else toString hours ++ "h " ++ toString minutes ++ "min"
  else
    let days := seconds / 86400
    let hours := seconds % 86400 / 3600
    if hours = 0 then toString days ++ "d"
    else toString days ++ "d " ++ toString hours ++ "h"

/-- `Schedule::humanize_calendar`. -/
def humanize_calendar (expression : String) : String :=
  let expr := strTrim expression
  if expr = "*-*-* *:*:*" ∨ expr = "hourly" then "Hourly"
  else if expr = "daily" ∨ (strStartsWith expr "*-*-*" ∧ strHas expr "00:00") then
    "Daily at midnight"
  else if expr = "weekly" ∨ (strStartsWith expr "Mon" ∧ strHas expr "00:00") then
    "Weekly on Monday"
  else if expr = "monthly" then "Monthly"
  else if strStartsWith expr "Mon-Fri" then
    let time_part := strTrim ((strStripPfx? "Mon-Fri" expr).getD "")
    if strHas time_part "08-21" ∨ strHas time_part "08:00-21:00" then
      "Mon-Fri, 8 AM - 9 PM"
    else "Mon-Fri " ++ time_part
  else if strHas expr "Mon,Wed,Fri" then
    let time_part := strTrim ((strSplitOn expr "Mon,Wed,Fri").getD 1 "")
    "Mon, Wed, Fri " ++ time_part
  else if (strHas expr "*:00:00" ∨ strHas expr "*:00") ∧
      (strHas expr "08-21" ∨ strHas expr "08:00-21:00") then
    "Hourly, 8 AM - 9 PM"
  else expression

/-- `Schedule::humanize`. -/
def Schedule.humanize : Schedule → String
  | .calendar expression => humanize_calendar expression
  | .onBoot seconds => humanize_duration seconds ++ " after boot"
  | .recurring seconds => "Every " ++ humanize_duration seconds
  | .multiple schedules =>
    joinSep ", " (schedules.attach.map (fun s => s.1.humanize))
termination_by s => sizeOf s
decreasing_by
  have := List.sizeOf_lt_of_mem s.2
  simp at *
  omega

/-! ### `src/systemctl.rs`: the `SystemctlClient` operations. -/

/-- `TimerInfo`. -/
structure TimerInfo where
  name : String
  enabled : Bool
  schedule : String
  next_run : Option String
  last_trigger : Option String
  service : String
deriving DecidableEq

/-- The deny-set of `validate_timer_name`. -/
def timerDenyChars : List Char := ['/', '\\', '|', '&', ';', '`', '$', '\n', '\r']

/-- `validate_timer_name`. -/
def validate_timer_name (name : String) : Except TimerError Unit :=
  if strIsEmpty name then
    .error (.invalidInput "Timer name cannot be empty")
  else if name.toList.any (fun c => timerDenyChars.contains c) then
    .error (.invalidInput "Timer name contains invalid characters")
  else if ¬ strEndsWith name ".timer" ∧ ¬ strEndsWith name ".service" then
    .error (.invalidInput "Timer name must end with .timer or .service")
  else
    .ok ()

/-- `timer_to_service`. -/
def timer_to_service (timer : String) : Except TimerError String :=
  match strStripSfx? ".timer" timer with
  | some base => .ok (base ++ ".service")
  | none => .error (.invalidInput "Timer name must end with .timer")

/-- `extract_on_calendar`. -/
def extract_on_calendar (value : String) : Option String :=
  match findSubstr? value.toList "OnCalendar=".toList with
  | some start =>
    let after := value.toList.drop (start + "OnCalendar=".toList.length)
    let endPos :=
      match findSubstr? after [';'] with
      | some i => i
      | none =>
        match findSubstr? after ['\x7d'] with
        | some i => i
        | none => after.length
    let calendar := strTrim ((after.take endPos).asString)
    if ¬ strIsEmpty calendar then some calendar else none
  | none => none

/-- `humanize_schedules`. -/
def humanize_schedules (entries : List String) : String :=
  joinSep ", " (entries.map (fun e =>
    match Schedule.parse (some e) none none with
    | .ok schedule => schedule.humanize
    | .error _ => e))

/-- The accumulating state of `parse_timer_info`'s line loop. -/
structure TimerShowAcc where
  id : String
  load_state : String
  unit_file_state : String
  active_state : String
  next_elapse : Option String
  last_trigger : Option String
  calendar_entries : List String
deriving DecidableEq

def timerShowInit : TimerShowAcc :=
  { id := "", load_state := "", unit_file_state := "", active_state := "",
    next_elapse := none, last_trigger := none, calendar_entries := [] }

def timerShowStep (acc : TimerShowAcc) (line : String) : TimerShowAcc :=
  match strStripPfx? "Id=" line with
  | some value => { acc with id := value }
  | none =>
  match strStripPfx? "LoadState=" line with
  | some value => { acc with load_state := value }
  | none =>
  match strStripPfx? "UnitFileState=" line with
  | some value => { acc with unit_file_state := value }
  | none =>
  match strStripPfx? "ActiveState=" line with
  | some value => { acc with active_state := value }
  | none =>
  match strStripPfx? "NextElapseUSecRealtime=" line with
  | some value =>
    if value ≠ "0" ∧ ¬ strIsEmpty value then { acc with next_elapse := some value } else acc
  | none =>
  match strStripPfx? "LastTriggerUSec=" line with
  | some value =>
    if value ≠ "0" ∧ ¬ strIsEmpty value then { acc with last_trigger := some value } else acc
  | none =>
  match strStripPfx? "TimersCalendar=" line with
  | some value =>
    match extract_on_calendar value with
    | some cal => { acc with calendar_entries := acc.calendar_entries ++ [cal] }
    | none => acc
  | none => acc

def timerShowProps (output : String) : TimerShowAcc :=
  (rustLines output).foldl timerShowStep timerShowInit

/-- `parse_timer_info` from `src/systemctl.rs`. -/
def parse_timer_info (output : String) (name : String) : Except TimerError TimerInfo :=
  let acc := timerShowProps output
  if acc.load_state = "not-found" then .error (.notFound name)
  else
    let enabled := acc.unit_file_state = "enabled" && acc.active_state = "active"
    let service :=
      match timer_to_service name with
      | .ok s => s
      | .error _ => name
    let schedule_human :=
      if acc.calendar_entries.isEmpty then "Schedule not available"
      else humanize_schedules acc.calendar_entries
    .ok { name := acc.id, enabled, schedule := schedule_human,
          next_run := acc.next_elapse, last_trigger := acc.last_trigger, service }

/-- `parse_list_timers`. -/
def parse_list_timers (output : String) : Except TimerError (List TimerInfo) :=
  .ok ((rustLines output).foldl (fun timers line =>
    let line := strTrim line
    if strIsEmpty line || strStartsWith line "NEXT" || strStartsWith line "---" then timers
    else
      let parts := splitWs line
      if parts.length < 7 then timers
      else
        let timer_name := parts.getD (parts.length - 2) ""
        let service_name := parts.getD (parts.length - 1) ""
        timers ++ [{ name := timer_name
                     enabled := true
                     schedule := ""
                     next_run := if parts.getD 0 "" = "n/a" then none
                       else some (joinSep " " (parts.take 5))
                     last_trigger := if parts.getD 5 "" = "n/a" then none
                       else some (parts.getD 5 "")
                     service := service_name }]) [])

def showTimerArgs (name : String) : List String :=
  ["show", name,
   "--property=Id,LoadState,UnitFileState,ActiveState,NextElapseUSecRealtime,LastTriggerUSec,TimersCalendar"]

/-- `SystemctlClient::get_timer_info`. -/
def get_timer_info (ex : Executor) (name : String) : Except TimerError TimerInfo × Trace :=
  match validate_timer_name name with
  | .error e => (.error e, [])
  | .ok _ =>
    match ex "systemctl" (showTimerArgs name) with
    | .error e => (.error e, [("systemctl", showTimerArgs name)])
    | .ok out =>
      (if out.exit_code ≠ 0 then
        .error (.commandFailed ("systemctl show " ++ name) out.stderr (some out.exit_code))
      else parse_timer_info out.stdout name,
       [("systemctl", showTimerArgs name)])

/-- `SystemctlClient::run_timer` (both modes execute the same command). -/
def run_timer (ex : Executor) (name : String) (_test_mode : Bool) :
    Except TimerError Unit × Trace :=
  match validate_timer_name name with
  | .error e => (.error e, [])
  | .ok _ =>
    match timer_to_service name with
    | .error e => (.error e, [])
    | .ok service =>
      match ex "systemctl" ["start", "--no-block", service] with
      | .error e => (.error e, [("systemctl", ["start", "--no-block", service])])
      | .ok out =>
        (if out.exit_code ≠ 0 then
          .error (.commandFailed ("systemctl start " ++ service) out.stderr
            (some out.exit_code))
        else .ok (),
         [("systemctl", ["start", "--no-block", service])])

/-- `SystemctlClient::enable_timer`: `enable` then `start`. -/
def enable_timer (ex : Executor) (name : String) : Except TimerError Unit × Trace :=
  match validate_timer_name name with
  | .error e => (.error e, [])
  | .ok _ =>
    match ex "systemctl" ["enable", name] with
    | .error e => (.error e, [("systemctl", ["enable", name])])
    | .ok out =>
      if out.exit_code ≠ 0 then
        (.error (.commandFailed ("systemctl enable " ++ name) out.stderr
          (some out.exit_code)),
         [("systemctl", ["enable", name])])
      else
        match ex "systemctl" ["start", name] with
        | .error e =>
          (.error e, [("systemctl", ["enable", name]), ("systemctl", ["start", name])])
        | .ok out2 =>
          (if out2.exit_code ≠ 0 then
            .error (.commandFailed ("systemctl start " ++ name) out2.stderr
              (some out2.exit_code))
          else .ok (),
           [("systemctl", ["enable", name]), ("systemctl", ["start", name])])

/-- `SystemctlClient::disable_timer`: `stop` then `disable`. -/
def disable_timer (ex : Executor) (name : String) : Except TimerError Unit × Trace :=
  match validate_timer_name name with
  | .error e => (.error e, [])
  | .ok _ =>
    match ex "systemctl" ["stop", name] with
    | .error e => (.error e, [("systemctl", ["stop", name])])
    | .ok out =>
      if out.exit_code ≠ 0 then
        (.error (.commandFailed ("systemctl stop " ++ name) out.stderr
          (some out.exit_code)),
         [("systemctl", ["stop", name])])
      else
        match ex "systemctl" ["disable", name] with
        | .error e =>
          (.error e, [("systemctl", ["stop", name]), ("systemctl", ["disable", name])])
        | .ok out2 =>
          (if out2.exit_code ≠ 0 then
            .error (.commandFailed ("systemctl disable " ++ name) out2.stderr
              (some out2.exit_code))
          else .ok (),
           [("systemctl", ["stop", name]), ("systemctl", ["disable", name])])

/-! ### `src/journal.rs`: the execution-history aggregator. -/

inductive ExecutionStatus where
  | success
  | failed
  | running
deriving DecidableEq

inductive TriggerType where
  | scheduled
  | manual
deriving DecidableEq

structure ExecutionHistory where
  invocation_id : String
  start_time : String
  end_time : Option String
  duration_secs : Option Nat
  status : ExecutionStatus
  exit_code : Option Int
  trigger : TriggerType
deriving DecidableEq

structure ExecutionDetails where
  invocation_id : String
  start_time : String
  end_time : Option String
  duration_secs : Option Nat
  status : ExecutionStatus
  exit_code : Option Int
  trigger : TriggerType
  output : List String
deriving DecidableEq

/-- `JournalEntry`: the `serde`-deserialized shape of one journalctl JSON line. -/
structure JournalEntry where
  invocation_id : Option String
  timestamp : Option String
  message : Option String
  exit_status : Option String
  unit : Option String
deriving DecidableEq

/-- Extract one `Option<String>` field as serde does for a derived struct:
missing or `null` gives `none`, a string gives `some`, any other type or a
duplicated field fails the whole line. -/
def optStrField? (fields : List (String × Json)) (key : String) : Option (Option String) :=
  match fields.filter (fun kv => kv.1 = key) with
  | [] => some none
  | [(_, .str s)] => some (some s)
  | [(_, .null)] => some none
  | _ => none

/-- Deserialize one journal line (`serde_json::from_str::<JournalEntry>`). -/
def journalEntryFromStr (line : String) : Option JournalEntry :=
  match jsonFromStr line with
  | some (.obj fs) => do
    let inv ← optStrField? fs "INVOCATION_ID"
    let ts ← optStrField? fs "__REALTIME_TIMESTAMP"
    let msg ← optStrField? fs "MESSAGE"
    let ex ← optStrField? fs "EXIT_STATUS"
    let un ← optStrField? fs "_SYSTEMD_UNIT"
    some { invocation_id := inv, timestamp := ts, message := msg,
           exit_status := ex, unit := un }
  | _ => none

/-- `JournalClient::parse_journal_entries`: lenient, line-by-line. -/
def parse_journal_entries_go : List String → List JournalEntry
  | [] => []
  | l :: rest =>
    let t := strTrim l
    if strIsEmpty t then parse_journal_entries_go rest
    else
      match journalEntryFromStr t with
      | some entry => entry :: parse_journal_entries_go rest
      | none => parse_journal_entries_go rest

def parse_journal_entries (output : String) : Except TimerError (List JournalEntry) :=
  .ok (parse_journal_entries_go (rustLines output))

/-- `JournalClient::calculate_duration`. -/
def calculate_duration (start e : String) : Option Nat := do
  let start_us ← parseUnsigned? start u64Max
  let end_us ← parseUnsigned? e u64Max
  if start_us < end_us then some ((end_us - start_us) / 1000000) else none

/-- `JournalClient::format_timestamp`. -/
def format_timestamp (timestamp : String) : String :=
  match parseSigned? timestamp i64Min i64Max with
  | some us =>
    let secs := us.tdiv 1000000
    if chronoSecsOk secs then formatCivil secs else timestamp
  | none => timestamp

/-- `JournalClient::determine_trigger`. -/
def determine_trigger : List JournalEntry → TriggerType
  | [] => .scheduled
  | e :: rest =>
    match e.message with
    | some msg =>
      if strHas msg "timer" || strHas msg "scheduled" then .scheduled
      else if strHas msg "manual" || strHas msg "systemctl start" then .manual
      else determine_trigger rest
    | none => determine_trigger rest

/-- `entries.last().and_then(|e| e.timestamp.clone())` — the end-time field. -/
def lastTimestamp (entries : List JournalEntry) : Option String :=
  entries.getLast?.bind (fun e => e.timestamp)

/-- `entries.iter().rev().find_map(|e| e.exit_status.as_ref()).and_then(parse)`. -/
def lastExitCode (entries : List JournalEntry) : Option Int :=
  (entries.reverse.findSome? (fun e => e.exit_status)).bind
    (fun s => parseSigned? s i32Min i32Max)

/-- `JournalClient::create_execution_history`. -/
def create_execution_history (invocation_id : String) (entries : List JournalEntry) :
    Except TimerError ExecutionHistory :=
  match entries.head?.bind (fun e => e.timestamp) with
  | none =>
    .error (.parseError "journal" ("No timestamp for invocation " ++ invocation_id))
  | some start_time =>
    let end_time := lastTimestamp entries
    let duration_secs :=
      match end_time with
      | some e => calculate_duration start_time e
      | none => none
    let exit_code := lastExitCode entries
    let status :=
      if end_time.isNone then ExecutionStatus.running
      else if exit_code = some 0 then ExecutionStatus.success
      else if exit_code.isSome then ExecutionStatus.failed
      else ExecutionStatus.success
    let trigger := determine_trigger entries
    .ok { invocation_id, start_time := format_timestamp start_time,
          end_time := end_time.map format_timestamp, duration_secs, status,
          exit_code, trigger }

/-- The grouping step of `group_by_invocation`: entries without an invocation
id are dropped; each surviving entry is appended to its id's group. The
`HashMap` is modelled as an association list in first-occurrence key order
(the later sort is the only consumer of the order). -/
def groupStep (groups : List (String × List JournalEntry)) (entry : JournalEntry) :
    List (String × List JournalEntry) :=
  match entry.invocation_id with
  | some id =>
    if groups.any (fun g => g.1 = id) then
      groups.map (fun g => if g.1 = id then (g.1, g.2 ++ [entry]) else g)
    else groups ++ [(id, [entry])]
  | none => groups

def groupEntries (entries : List JournalEntry) : List (String × List JournalEntry) :=
  entries.foldl groupStep []

/-- `collect::<Result<Vec<_>>>` over the grouped invocations. -/
def collectHistories : List (String × List JournalEntry) →
    Except TimerError (List ExecutionHistory)
  | [] => .ok []
  | g :: rest => do
    let h ← create_execution_history g.1 g.2
    let hs ← collectHistories rest
    return h :: hs

/-- The comparator of `history.sort_by(|a, b| b.start_time.cmp(&a.start_time))`:
`a` may precede `b` when `b.start_time ≤ a.start_time` (Rust's `String` order is
bytewise lexicographic, which agrees with `lexLe` on code points). -/
def historyDescending (a b : ExecutionHistory) : Prop :=
  lexLe b.start_time.toList a.start_time.toList = true

instance : DecidableRel historyDescending :=
  fun a b => inferInstanceAs (Decidable (_ = true))

/-- `JournalClient::group_by_invocation`: group, aggregate, sort by
`start_time` descending, truncate. Rust's `sort_by` is a stable sort, and all
stable sorts of a list under one total comparator produce the same output, so
the sort is modelled by the stable `List.insertionSort`. -/
def group_by_invocation (entries : List JournalEntry) (limit : Nat) :
    Except TimerError (List ExecutionHistory) :=
  match collectHistories (groupEntries entries) with
  | .error e => .error e
  | .ok history => .ok ((List.insertionSort historyDescending history).take limit)

/-- `JournalClient::create_execution_details`. -/
def create_execution_details (invocation_id : String) (entries : List JournalEntry) :
    Except TimerError ExecutionDetails := do
  let history ← create_execution_history invocation_id entries
  let output := entries.filterMap (fun e => e.message)
  return { invocation_id := history.invocation_id, start_time := history.start_time,
           end_time := history.end_time, duration_secs := history.duration_secs,
           status := history.status, exit_code := history.exit_code,
           trigger := history.trigger, output }

def historyArgs (service : String) : List String :=
  ["-u", service, "--since", "7 days ago", "-o", "json", "--no-pager"]

/-- `JournalClient::get_execution_history` (note: no identifier validation). -/
def get_execution_history (ex : Executor) (service : String) (limit : Nat) :
    Except TimerError (List ExecutionHistory) × Trace :=
  match ex "journalctl" (historyArgs service) with
  | .error e => (.error e, [("journalctl", historyArgs service)])
  | .ok out =>
    (if out.exit_code ≠ 0 then
      .error (.commandFailed ("journalctl -u " ++ service) out.stderr
        (some out.exit_code))
    else
      match parse_journal_entries out.stdout with
      | .error e => .error e
      | .ok entries => group_by_invocation entries limit,
     [("journalctl", historyArgs service)])

def detailsArgs (service invocation_id : String) : List String :=
  ["-u", service, "INVOCATION_ID=" ++ invocation_id, "-o", "json", "--no-pager"]

/-- `JournalClient::get_execution_details` (note: no identifier validation). -/
def get_execution_details (ex : Executor) (service invocation_id : String) :
    Except TimerError ExecutionDetails × Trace :=
  match ex "journalctl" (detailsArgs service invocation_id) with
  | .error e => (.error e, [("journalctl", detailsArgs service invocation_id)])
  | .ok out =>
    (if out.exit_code ≠ 0 then
      .error (.commandFailed
        ("journalctl -u " ++ service ++ " invocation " ++ invocation_id) out.stderr
        (some out.exit_code))
    else
      match parse_journal_entries out.stdout with
      | .error e => .error e
      | .ok entries => create_execution_details invocation_id entries,
     [("journalctl", detailsArgs service invocation_id)])

/-! ### `src/log_reader.rs`: the file-based fallback's end-marker parser. -/

/-- `LogReader::extract_value`. -/
def extract_value (line : String) (key : String) : Option String :=
  (findSubstr? line.toList key.toList).map (fun pos =>
    let rest := line.toList.drop (pos + key.toList.length)
    ((splitWsAux rest []).headD []).asString)

/-- `LogReader::parse_end_line`. -/
def parse_end_line (line : String) :
    Option String × Option Int × Option Nat × ExecutionStatus :=
  if ¬ strStartsWith line "[END]" then (none, none, none, .running)
  else
    let exit_code := (extract_value line "exit_code=").bind
      (fun s => parseSigned? s i32Min i32Max)
    let duration_secs := (extract_value line "duration=").bind
      (fun s => parseUnsigned? (trimEndChar s 's') u64Max)
    let end_time := (strStripPfx? "[END] " line).bind
      (fun s => (splitWsAux s.toList []).head?.map List.asString)
    let status :=
      match exit_code with
      | some 0 => ExecutionStatus.success
      | some _ => ExecutionStatus.failed
      | none => ExecutionStatus.success
    (end_time, exit_code, duration_secs, status)

/-! ### Claim-side auxiliary definitions. -/

/-- The guard set of `humanize_calendar`: exactly the alias and pattern
conditions under which the function rewrites its input. -/
def recognizedCalendar (expression : String) : Prop :=
  (strTrim expression = "*-*-* *:*:*" ∨ strTrim expression = "hourly") ∨
  (strTrim expression = "daily" ∨
    (strStartsWith (strTrim expression) "*-*-*" ∧ strHas (strTrim expression) "00:00")) ∨
  (strTrim expression = "weekly" ∨
    (strStartsWith (strTrim expression) "Mon" ∧ strHas (strTrim expression) "00:00")) ∨
  strTrim expression = "monthly" ∨
  strStartsWith (strTrim expression) "Mon-Fri" ∨
  strHas (strTrim expression) "Mon,Wed,Fri" ∨
  ((strHas (strTrim expression) "*:00:00" ∨ strHas (strTrim expression) "*:00") ∧
    (strHas (strTrim expression) "08-21" ∨ strHas (strTrim expression) "08:00-21:00"))

instance (expression : String) : Decidable (recognizedCalendar expression) := by
  unfold recognizedCalendar
  infer_instance

/-- Spec-side notion (claim wording): a bare nonempty decimal numeral. -/
def isBareNumeral (s : String) : Bool :=
  (!s.toList.isEmpty) && s.toList.all Char.isDigit

def specTimeSpanSuffixes : List String := ["min", "m", "hour", "hours", "h", "sec", "s"]

/-- Spec-side notion (claim wording): a numeral followed by exactly one
recognized unit suffix. -/
def isUnitSuffixedNumeral (s : String) : Bool :=
  specTimeSpanSuffixes.any (fun sfx =>
    match stripPfx? sfx.toList.reverse s.toList.reverse with
    | some rest => isBareNumeral rest.reverse.asString
    | none => false)

/-- The numeral string that `parse_time_span` actually submits to the integer
parser: the branch is selected by the suffix checks and then strips all
trailing repetitions of the unit tokens. -/
def timeSpanNumeral (expr : String) : String :=
  let expr := strTrim expr
  if strEndsWith expr "min" || strEndsWith expr "m" then
    trimEndChar (trimEndStr expr "min") 'm'
  else if strEndsWith expr "hour" || strEndsWith expr "hours" || strEndsWith expr "h" then
    trimEndChar (trimEndStr (trimEndStr expr "hours") "hour") 'h'
  else if strEndsWith expr "sec" || strEndsWith expr "s" then
    trimEndChar (trimEndStr expr "sec") 's'
  else expr

/-- The parsed value of a `KEY=`-prefixed property: the value carried by the
last line of the `systemctl show` output that starts with `key`, or `""` if no
line does. This is the claim-side reading of "the parsed property". -/
def lastPropValue (output : String) (key : String) : String :=
  (rustLines output).foldl (fun acc l =>
    match strStripPfx? key l with
    | some v => v
    | none => acc) ""

/-- The sort comparator is total and transitive (inherited from the
lexicographic order on the `start_time` strings). -/
instance : IsTotal ExecutionHistory historyDescending :=
  ⟨fun a b => lexLe_total b.start_time.toList a.start_time.toList⟩

instance : IsTrans ExecutionHistory historyDescending :=
  ⟨fun _ b _ hab hbc => lexLe_trans _ b.start_time.toList _ hbc hab⟩

/-- A group holding only a start line: one entry with a timestamp and no
exit-status field (no end marker in the claim's sense). -/
def c2StartOnly : JournalEntry :=
  { invocation_id := some "a", timestamp := some "1705320000000000",
    message := some "Starting", exit_status := none, unit := none }

/-- A two-entry failing invocation (taken from the crate's own test data). -/
def c2wEntries : List JournalEntry :=
  [{ invocation_id := some "def456", timestamp := some "1705320000000000",
     message := some "Starting", exit_status := none, unit := none },
   { invocation_id := some "def456", timestamp := some "1705320120000000",
     message := none, exit_status := some "1", unit := none }]

def c2wRecord : ExecutionHistory :=
  { invocation_id := "def456", start_time := "2024-01-15 12:00:00",
    end_time := some "2024-01-15 12:02:00", duration_secs := some 120,
    status := .failed, exit_code := some 1, trigger := .scheduled }

/-- Two single-entry invocations whose raw timestamps have different widths:
`"999999"` is lexicographically greater than `"1000000000000000"` although it
denotes a much earlier instant. -/
def c5A : JournalEntry :=
  { invocation_id := some "A", timestamp := some "999999",
    message := none, exit_status := some "0", unit := none }

def c5B : JournalEntry :=
  { invocation_id := some "B", timestamp := some "1000000000000000",
    message := none, exit_status := some "0", unit := none }

def c5RecordA : ExecutionHistory :=
  { invocation_id := "A", start_time := "1970-01-01 00:00:00",
    end_time := some "1970-01-01 00:00:00", duration_secs := none,
    status := .success, exit_code := some 0, trigger := .scheduled }

def c5RecordB : ExecutionHistory :=
  { invocation_id := "B", start_time := "2001-09-09 01:46:40",
    end_time := some "2001-09-09 01:46:40", duration_secs := none,
    status := .success, exit_code := some 0, trigger := .scheduled }

end Timers

/-! ## Claim verification. -/

/-- The shell metacharacters named by the injection claim. -/
def injectionChars : List Char := [';', '|', '`', '$', '&']

/-- Whether a validation result is the services crate's identifier rejection. -/
def isInvalidServiceNameErr : Except Services.ServiceError Unit → Bool
  | .error (.invalidServiceName _) => true
  | _ => false

/-- Whether a validation result is the timers crate's identifier rejection. -/
def isInvalidInputErr : Except Timers.TimerError Unit → Bool
  | .error (.invalidInput _) => true
  | _ => false

/-- An executor that answers every invocation with a clean exit. -/
def c1Executor : Timers.Executor :=
  fun _ _ => .ok { stdout := "", stderr := "", exit_code := 0 }

/-- An executor whose every command exits with code 5 (systemd's "unit not
found" exit code). -/
def c3Executor : Timers.Executor :=
  fun _ _ => .ok { stdout := "", stderr := "boom", exit_code := 5 }

def c3wOut : Services.CommandOutput :=
  { exit_code := 4, stdout := "", stderr := "denied" }

def c3wExecutor : Services.Executor := fun _ _ => .ok c3wOut

def c10Out : Services.CommandOutput :=
  { exit_code := 1, stdout := "", stderr := "No entries" }

def c10Executor : Services.Executor := fun _ _ => .ok c10Out


/-- C6: humanizing `"Mon-Fri 08-21:00"` yields exactly `"Mon-Fri, 8 AM - 9 PM"`,
and every expression outside the recognized alias-and-pattern guard set is
returned unchanged; `humanize_calendar` is a total function into strings, so it
never fails. -/
theorem C6_humanize_calendar_roundtrip (expression : String)
    (h : ¬ Timers.recognizedCalendar expression) :
    Timers.humanize_calendar "Mon-Fri 08-21:00" = "Mon-Fri, 8 AM - 9 PM" ∧
    Timers.humanize_calendar expression = expression := by
  refine ⟨by rfl, ?_⟩
  unfold Timers.recognizedCalendar at h
  have h1 : ¬ (strTrim expression = "*-*-* *:*:*" ∨ strTrim expression = "hourly") :=
    fun hc => h (Or.inl hc)
  have h2 : ¬ (strTrim expression = "daily" ∨
      (strStartsWith (strTrim expression) "*-*-*" ∧ strHas (strTrim expression) "00:00")) :=
    fun hc => h (Or.inr (Or.inl hc))
  have h3 : ¬ (strTrim expression = "weekly" ∨
      (strStartsWith (strTrim expression) "Mon" ∧ strHas (strTrim expression) "00:00")) :=
    fun hc => h (Or.inr (Or.inr (Or.inl hc)))
  have h4 : ¬ strTrim expression = "monthly" :=
    fun hc => h (Or.inr (Or.inr (Or.inr (Or.inl hc))))
  have h5 : ¬ (strStartsWith (strTrim expression) "Mon-Fri" = true) :=
    fun hc => h (Or.inr (Or.inr (Or.inr (Or.inr (Or.inl hc)))))
  have h6 : ¬ (strHas (strTrim expression) "Mon,Wed,Fri" = true) :=
    fun hc => h (Or.inr (Or.inr (Or.inr (Or.inr (Or.inr (Or.inl hc))))))
  have h7 : ¬ ((strHas (strTrim expression) "*:00:00" ∨ strHas (strTrim expression) "*:00") ∧
      (strHas (strTrim expression) "08-21" ∨ strHas (strTrim expression) "08:00-21:00")) :=
    fun hc => h (Or.inr (Or.inr (Or.inr (Or.inr (Or.inr (Or.inr hc))))))
  simp only [Timers.humanize_calendar]
  rw [if_neg h1, if_neg h2, if_neg h3, if_neg h4, if_neg h5, if_neg h6, if_neg h7]

/-- Witness for C6 at the concrete unrecognized expression `"Sat 12:00"`. -/
theorem C6_humanize_calendar_roundtrip_witness :
    ¬ Timers.recognizedCalendar "Sat 12:00" ∧
    (Timers.humanize_calendar "Mon-Fri 08-21:00" = "Mon-Fri, 8 AM - 9 PM" ∧
     Timers.humanize_calendar "Sat 12:00" = "Sat 12:00") :=
  ⟨by decide, C6_humanize_calendar_roundtrip "Sat 12:00" (by decide)⟩

/-- C7 counterexample: the claim's "anything that is neither a recognized
unit-suffixed numeral nor a bare numeral fails" is refuted by `"5mm"`, which is
neither (its suffix `"mm"` is not in the unit set, and it is not all digits),
yet parses successfully to 300 because the minute branch strips all trailing
`'m'` characters. -/
theorem C7_parse_time_span_counterexample :
    Timers.parse_time_span "5mm" = .ok 300 ∧
    Timers.isUnitSuffixedNumeral "5mm" = false ∧
    Timers.isBareNumeral "5mm" = false :=
  ⟨rfl, rfl, rfl⟩

/-- C7 (amended): the enumerated values hold (`"5min" ↦ 300`, `"2h" ↦ 7200`,
`"30s" ↦ 30`, `"120" ↦ 120`, `"abc"` fails), and in general the parse succeeds
exactly when the numeral left over after the branch's greedy (repeated)
suffix-stripping is a valid `u64` numeral — so inputs such as `"5mm"` also
succeed. -/
theorem C7_parse_time_span_values :
    Timers.parse_time_span "5min" = .ok 300 ∧
    Timers.parse_time_span "2h" = .ok 7200 ∧
    Timers.parse_time_span "30s" = .ok 30 ∧
    Timers.parse_time_span "120" = .ok 120 ∧
    Timers.parse_time_span "abc" =
      .error (.parseError "time_span" "Invalid time span: abc") ∧
    ∀ expr : String, (Timers.parse_time_span expr).isOk =
      (parseUnsigned? (Timers.timeSpanNumeral expr) u64Max).isSome := by
  refine ⟨rfl, rfl, rfl, rfl, rfl, ?_⟩
  intro expr
  unfold Timers.parse_time_span Timers.timeSpanNumeral
  cases h1 : strEndsWith (strTrim expr) "min" || strEndsWith (strTrim expr) "m" with
  | true =>
    try simp only [h1]
    cases hp : parseUnsigned? (trimEndChar (trimEndStr (strTrim expr) "min") 'm') u64Max <;> simp_all [Except.isOk, Except.toBool]
  | false =>
    try simp only [h1]
    cases h2 : strEndsWith (strTrim expr) "hour" || strEndsWith (strTrim expr) "hours" ||
        strEndsWith (strTrim expr) "h" with
    | true =>
      try simp only [h2]
      cases hp : parseUnsigned?
          (trimEndChar (trimEndStr (trimEndStr (strTrim expr) "hours") "hour") 'h') u64Max <;> simp_all [Except.isOk, Except.toBool]
    | false =>
      try simp only [h2]
      cases h3 : strEndsWith (strTrim expr) "sec" || strEndsWith (strTrim expr) "s" with
      | true =>
        try simp only [h3]
        cases hp : parseUnsigned? (trimEndChar (trimEndStr (strTrim expr) "sec") 's') u64Max <;> simp_all [Except.isOk, Except.toBool]
      | false =>
        try simp only [h3]
        cases hp : parseUnsigned? (strTrim expr) u64Max <;> simp_all [Except.isOk, Except.toBool]

/-- C2 counterexample: a group consisting of only a start line (one entry with
a timestamp and no exit-status end marker) yields status `Success`, not
`Running` as the claim states — `end_time` is taken from the last entry's
timestamp unconditionally, so it is present even without an end marker. The
`duration_secs = none` part does hold. -/
theorem C2_status_counterexample :
    Timers.create_execution_history "a" [Timers.c2StartOnly] =
      .ok { invocation_id := "a", start_time := "2024-01-15 12:00:00",
            end_time := some "2024-01-15 12:00:00", duration_secs := none,
            status := .success, exit_code := none, trigger := .scheduled } ∧
    [Timers.c2StartOnly].all (fun e => e.exit_status.isNone) = true :=
  ⟨rfl, rfl⟩

/-- C2 (amended): in a successfully aggregated record, `status = Running` iff
the last entry has no timestamp; `Success` iff the last entry has a timestamp
and the backwards-scanned exit code is 0 or absent; `Failed` iff the last
entry has a timestamp and that exit code is present and non-zero. A group of
a single start line (no exit status) yields `Success` with absent duration. -/
theorem C2_status_amended (id : String) (entries : List Timers.JournalEntry)
    (h : Timers.ExecutionHistory)
    (hok : Timers.create_execution_history id entries = .ok h) :
    (h.status = .running ↔ Timers.lastTimestamp entries = none) ∧
    (h.status = .success ↔ (Timers.lastTimestamp entries).isSome ∧
      (Timers.lastExitCode entries = some 0 ∨ Timers.lastExitCode entries = none)) ∧
    (h.status = .failed ↔ (Timers.lastTimestamp entries).isSome ∧
      Timers.lastExitCode entries ≠ none ∧ Timers.lastExitCode entries ≠ some 0) ∧
    (∀ e : Timers.JournalEntry, entries = [e] → e.exit_status = none →
      h.status = .success ∧ h.duration_secs = none) := by
  have hdur : ∀ t : String, Timers.calculate_duration t t = none := by
    intro t
    unfold Timers.calculate_duration
    cases hp : parseUnsigned? t u64Max <;> simp [hp]
  unfold Timers.create_execution_history at hok
  cases hstart : entries.head?.bind (fun e => e.timestamp) with
  | none => rw [hstart] at hok; exact absurd hok (by simp)
  | some start_time =>
    rw [hstart] at hok
    dsimp only at hok
    cases hend : Timers.lastTimestamp entries with
    | none =>
      rw [hend] at hok
      simp only [Option.isNone_none, Option.map_none', if_true, reduceIte] at hok
      obtain rfl := Except.ok.inj hok
      refine ⟨by simp, by simp, by simp, ?_⟩
      intro e he _
      subst he
      simp only [Timers.lastTimestamp, List.getLast?_singleton] at hend
      simp only [List.head?_cons] at hstart
      simp only [Option.bind] at hstart hend
      rw [hend] at hstart
      exact absurd hstart (by simp)
    | some endt =>
      rw [hend] at hok
      cases hexit : Timers.lastExitCode entries with
      | none =>
        rw [hexit] at hok
        simp only [Option.isNone_some, Bool.false_eq_true, if_false, reduceIte,
          Option.isSome_none] at hok
        obtain rfl := Except.ok.inj hok
        refine ⟨by simp, by simp [hexit], by simp [hexit], ?_⟩
        intro e he _
        subst he
        simp only [Timers.lastTimestamp, List.getLast?_singleton] at hend
        simp only [List.head?_cons] at hstart
        simp only [Option.bind] at hstart hend
        rw [hend] at hstart
        obtain rfl : endt = start_time := Option.some.inj hstart
        simp [hdur]
      | some code =>
        rw [hexit] at hok
        by_cases hzero : code = 0
        · subst hzero
          simp only [Option.isNone_some, Bool.false_eq_true, if_false, reduceIte,
            if_pos rfl] at hok
          obtain rfl := Except.ok.inj hok
          refine ⟨by simp, by simp [hexit], by simp [hexit], ?_⟩
          intro e he hes
          subst he
          simp [Timers.lastExitCode, hes] at hexit
        · have hne : ¬ (some code = some (0 : Int)) := by
            intro hc
            exact hzero (Option.some.inj hc)
          simp only [Option.isNone_some, Bool.false_eq_true, if_false, reduceIte,
            if_neg hne, Option.isSome_some, if_true] at hok
          obtain rfl := Except.ok.inj hok
          refine ⟨by simp, ?_, ?_, ?_⟩
          · simp only [hexit]
            simp
            intro hc
            exact absurd hc hzero
          · simp only [hexit]
            simp
            exact hzero
          · intro e he hes
            subst he
            simp [Timers.lastExitCode, hes] at hexit

/-- Witness for C2 (amended) at a concrete two-entry failing group. -/
theorem C2_status_amended_witness :
    Timers.create_execution_history "def456" Timers.c2wEntries = .ok Timers.c2wRecord ∧
    (Timers.c2wRecord.status = .failed ↔
      (Timers.lastTimestamp Timers.c2wEntries).isSome ∧
      Timers.lastExitCode Timers.c2wEntries ≠ none ∧
      Timers.lastExitCode Timers.c2wEntries ≠ some 0) :=
  ⟨by rfl,
   (C2_status_amended "def456" Timers.c2wEntries Timers.c2wRecord (by rfl)).2.2.1⟩

/-- C5 counterexample: with invocation `A` at raw timestamp `"999999"` and `B`
at `"1000000000000000"`, the raw strings order as `"1000000000000000" <
"999999"` lexicographically (the second conjunct), so the claim's ordering —
descending lexicographic on the raw fixed-width timestamp strings — would put
`A` first; the code instead sorts on the formatted `start_time` field and
returns `B` before `A`. The raw timestamps are not fixed-width, and the
records' `start_time` is the formatted, not the raw, string. -/
theorem C5_sort_counterexample :
    Timers.group_by_invocation [Timers.c5A, Timers.c5B] 10 =
      .ok [Timers.c5RecordB, Timers.c5RecordA] ∧
    lexLe "1000000000000000".toList "999999".toList = true ∧
    lexLe "999999".toList "1000000000000000".toList = false :=
  ⟨rfl, rfl, rfl⟩

/-- C5 (amended): the execution-history list returned by
`group_by_invocation` is sorted by the records' `start_time` field (the
formatted timestamp string) in descending lexicographic order, and its length
is at most the requested limit. -/
theorem C5_history_sorted_truncated (entries : List Timers.JournalEntry)
    (limit : Nat) (h : List Timers.ExecutionHistory)
    (hok : Timers.group_by_invocation entries limit = .ok h) :
    h.length ≤ limit ∧ h.Pairwise Timers.historyDescending := by
  unfold Timers.group_by_invocation at hok
  cases hc : Timers.collectHistories (Timers.groupEntries entries) with
  | error e => rw [hc] at hok; exact absurd hok (by simp)
  | ok history =>
    rw [hc] at hok
    obtain rfl := Except.ok.inj hok
    constructor
    · exact List.length_take_le limit _
    · exact List.Pairwise.sublist (List.take_sublist _ _)
        (List.sorted_insertionSort Timers.historyDescending history)

/-- Witness for C5 (amended): the two-invocation input truncated to one. -/
theorem C5_history_sorted_truncated_witness :
    Timers.group_by_invocation [Timers.c5A, Timers.c5B] 1 = .ok [Timers.c5RecordB] ∧
    ([Timers.c5RecordB].length ≤ 1 ∧
      [Timers.c5RecordB].Pairwise Timers.historyDescending) :=
  ⟨rfl, C5_history_sorted_truncated [Timers.c5A, Timers.c5B] 1 [Timers.c5RecordB] rfl⟩

/-- C8: grouping only uses entries whose invocation id is present — dropping
the id-less entries first yields the identical execution-history result. -/
theorem C8_entries_without_id_excluded (entries : List Timers.JournalEntry)
    (limit : Nat) :
    Timers.group_by_invocation entries limit =
      Timers.group_by_invocation
        (entries.filter (fun e => e.invocation_id.isSome)) limit := by
  unfold Timers.group_by_invocation
  suffices hg : Timers.groupEntries entries =
      Timers.groupEntries (entries.filter (fun e => e.invocation_id.isSome)) by
    rw [hg]
  unfold Timers.groupEntries
  have key : ∀ (es : List Timers.JournalEntry) (groups : List (String × List Timers.JournalEntry)),
      es.foldl Timers.groupStep groups =
        (es.filter (fun e => e.invocation_id.isSome)).foldl Timers.groupStep groups := by
    intro es
    induction es with
    | nil => intro groups; rfl
    | cons e rest ih =>
      intro groups
      cases he : e.invocation_id with
      | none =>
        have hstep : Timers.groupStep groups e = groups := by
          unfold Timers.groupStep
          rw [he]
        simp only [List.foldl_cons, List.filter_cons, he, Option.isSome_none,
          Bool.false_eq_true, ite_false, hstep]
        exact ih groups
      | some id =>
        simp only [List.foldl_cons, List.filter_cons, he, Option.isSome_some, ite_true]
        exact ih (Timers.groupStep groups e)
  exact key entries []

theorem stripPfx?_eq_some_append {p l v : List Char} (h : stripPfx? p l = some v) :
    l = p ++ v := by
  induction p generalizing l with
  | nil => simpa [stripPfx?] using h
  | cons a ps ih =>
    cases l with
    | nil => simp [stripPfx?] at h
    | cons c cs =>
      simp only [stripPfx?] at h
      by_cases hc : c = a
      · subst hc
        rw [if_pos rfl] at h
        simpa using ih h
      · rw [if_neg hc] at h
        exact absurd h (by simp)

/-- Two `KEY=` prefixes whose first characters differ cannot both match one
line: if stripping `q` succeeds, stripping `p` fails. -/
theorem strStripPfx?_excl {p q : String} {cp cq : Char} {tp tq : List Char}
    (hp : p.toList = cp :: tp) (hq : q.toList = cq :: tq) (hne : cp ≠ cq)
    {l v : String} (h : strStripPfx? q l = some v) :
    strStripPfx? p l = none := by
  unfold strStripPfx? at h ⊢
  cases hs : stripPfx? q.toList l.toList with
  | none => rw [hs] at h; exact absurd h (by simp)
  | some w =>
    have hl := stripPfx?_eq_some_append hs
    rw [hq] at hl
    rw [hl, hp]
    simp only [stripPfx?]
    rw [if_neg (fun hh => hne hh.symm)]
    rfl

theorem timerShowStep_load_state (acc : Timers.TimerShowAcc) (line : String) :
    (Timers.timerShowStep acc line).load_state =
      (match strStripPfx? "LoadState=" line with
       | some v => v
       | none => acc.load_state) := by
  unfold Timers.timerShowStep
  cases h1 : strStripPfx? "Id=" line with
  | some v1 =>
    rw [strStripPfx?_excl (p := "LoadState=") rfl rfl (by decide) h1]
  | none =>
    cases h2 : strStripPfx? "LoadState=" line with
    | some v2 => rfl
    | none =>
      cases h3 : strStripPfx? "UnitFileState=" line with
      | some v3 => rfl
      | none =>
        cases h4 : strStripPfx? "ActiveState=" line with
        | some v4 => rfl
        | none =>
          cases h5 : strStripPfx? "NextElapseUSecRealtime=" line with
          | some v5 => dsimp only; split <;> rfl
          | none =>
            cases h6 : strStripPfx? "LastTriggerUSec=" line with
            | some v6 => dsimp only; split <;> rfl
            | none =>
              cases h7 : strStripPfx? "TimersCalendar=" line with
              | some v7 =>
                dsimp only
                cases Timers.extract_on_calendar v7 <;> rfl
              | none => rfl

theorem timerShowStep_unit_file_state (acc : Timers.TimerShowAcc) (line : String) :
    (Timers.timerShowStep acc line).unit_file_state =
      (match strStripPfx? "UnitFileState=" line with
       | some v => v
       | none => acc.unit_file_state) := by
  unfold Timers.timerShowStep
  cases h1 : strStripPfx? "Id=" line with
  | some v1 =>
    rw [strStripPfx?_excl (p := "UnitFileState=") rfl rfl (by decide) h1]
  | none =>
    cases h2 : strStripPfx? "LoadState=" line with
    | some v2 =>
      rw [strStripPfx?_excl (p := "UnitFileState=") rfl rfl (by decide) h2]
    | none =>
      cases h3 : strStripPfx? "UnitFileState=" line with
      | some v3 => rfl
      | none =>
        cases h4 : strStripPfx? "ActiveState=" line with
        | some v4 => rfl
        | none =>
          cases h5 : strStripPfx? "NextElapseUSecRealtime=" line with
          | some v5 => dsimp only; split <;> rfl
          | none =>
            cases h6 : strStripPfx? "LastTriggerUSec=" line with
            | some v6 => dsimp only; split <;> rfl
            | none =>
              cases h7 : strStripPfx? "TimersCalendar=" line with
              | some v7 =>
                dsimp only
                cases Timers.extract_on_calendar v7 <;> rfl
              | none => rfl

theorem timerShowStep_active_state (acc : Timers.TimerShowAcc) (line : String) :
    (Timers.timerShowStep acc line).active_state =
      (match strStripPfx? "ActiveState=" line with
       | some v => v
       | none => acc.active_state) := by
  unfold Timers.timerShowStep
  cases h1 : strStripPfx? "Id=" line with
  | some v1 =>
    rw [strStripPfx?_excl (p := "ActiveState=") rfl rfl (by decide) h1]
  | none =>
    cases h2 : strStripPfx? "LoadState=" line with
    | some v2 =>
      rw [strStripPfx?_excl (p := "ActiveState=") rfl rfl (by decide) h2]
    | none =>
      cases h3 : strStripPfx? "UnitFileState=" line with
      | some v3 =>
        rw [strStripPfx?_excl (p := "ActiveState=") rfl rfl (by decide) h3]
      | none =>
        cases h4 : strStripPfx? "ActiveState=" line with
        | some v4 => rfl
        | none =>
          cases h5 : strStripPfx? "NextElapseUSecRealtime=" line with
          | some v5 => dsimp only; split <;> rfl
          | none =>
            cases h6 : strStripPfx? "LastTriggerUSec=" line with
            | some v6 => dsimp only; split <;> rfl
            | none =>
              cases h7 : strStripPfx? "TimersCalendar=" line with
              | some v7 =>
                dsimp only
                cases Timers.extract_on_calendar v7 <;> rfl
              | none => rfl

/-- Transport a per-line field characterization through the fold. -/
theorem timerShowProps_field (f : Timers.TimerShowAcc → String) (key : String)
    (hstep : ∀ acc line, f (Timers.timerShowStep acc line) =
      (match strStripPfx? key line with
       | some v => v
       | none => f acc)) :
    ∀ (lines : List String) (acc : Timers.TimerShowAcc),
      f (lines.foldl Timers.timerShowStep acc) =
        lines.foldl (fun a l =>
          match strStripPfx? key l with
          | some v => v
          | none => a) (f acc) := by
  intro lines
  induction lines with
  | nil => intro acc; rfl
  | cons l rest ih =>
    intro acc
    simp only [List.foldl_cons]
    rw [ih (Timers.timerShowStep acc l), hstep acc l]

/-- C9: a parsed timer is reported enabled iff the parsed `UnitFileState`
property (last occurrence in the output, `""` if absent) equals `"enabled"`
and the parsed `ActiveState` property equals `"active"`; and whenever the
parsed `LoadState` property equals `"not-found"`, the parser returns the
`NotFound` error for the requested name, regardless of the other fields. -/
theorem C9_timer_info_enabled_and_notfound (output name : String) :
    (∀ info, Timers.parse_timer_info output name = .ok info →
      (info.enabled = true ↔
        Timers.lastPropValue output "UnitFileState=" = "enabled" ∧
        Timers.lastPropValue output "ActiveState=" = "active")) ∧
    (Timers.lastPropValue output "LoadState=" = "not-found" →
      Timers.parse_timer_info output name = .error (.notFound name)) := by
  have hload : (Timers.timerShowProps output).load_state =
      Timers.lastPropValue output "LoadState=" := by
    unfold Timers.timerShowProps Timers.lastPropValue
    exact timerShowProps_field (fun acc => acc.load_state) "LoadState="
      timerShowStep_load_state (rustLines output) Timers.timerShowInit
  have hufs : (Timers.timerShowProps output).unit_file_state =
      Timers.lastPropValue output "UnitFileState=" := by
    unfold Timers.timerShowProps Timers.lastPropValue
    exact timerShowProps_field (fun acc => acc.unit_file_state) "UnitFileState="
      timerShowStep_unit_file_state (rustLines output) Timers.timerShowInit
  have has : (Timers.timerShowProps output).active_state =
      Timers.lastPropValue output "ActiveState=" := by
    unfold Timers.timerShowProps Timers.lastPropValue
    exact timerShowProps_field (fun acc => acc.active_state) "ActiveState="
      timerShowStep_active_state (rustLines output) Timers.timerShowInit
  constructor
  · intro info hok
    unfold Timers.parse_timer_info at hok
    by_cases hnf : (Timers.timerShowProps output).load_state = "not-found"
    · rw [if_pos hnf] at hok
      exact absurd hok (by simp)
    · rw [if_neg hnf] at hok
      obtain rfl := (Except.ok.inj hok).symm
      rw [← hufs, ← has]
      simp [Bool.and_eq_true, decide_eq_true_eq]
  · intro hnf
    unfold Timers.parse_timer_info
    rw [if_pos (hload.trans hnf)]

set_option maxRecDepth 8192 in
/-- Witness for C9 at the crate's own `systemctl show` test outputs: an
enabled-and-active timer, and a `LoadState=not-found` one. -/
theorem C9_timer_info_enabled_and_notfound_witness :
    (Timers.parse_timer_info
        "Id=test.timer\nLoadState=loaded\nUnitFileState=enabled\nActiveState=active\nNextElapseUSecRealtime=1705324800000000\nLastTriggerUSec=1705323000000000\n"
        "test.timer" =
      .ok { name := "test.timer", enabled := true,
            schedule := "Schedule not available",
            next_run := some "1705324800000000",
            last_trigger := some "1705323000000000", service := "test.service" }) ∧
    (true = true ↔
      Timers.lastPropValue
        "Id=test.timer\nLoadState=loaded\nUnitFileState=enabled\nActiveState=active\nNextElapseUSecRealtime=1705324800000000\nLastTriggerUSec=1705323000000000\n"
        "UnitFileState=" = "enabled" ∧
      Timers.lastPropValue
        "Id=test.timer\nLoadState=loaded\nUnitFileState=enabled\nActiveState=active\nNextElapseUSecRealtime=1705324800000000\nLastTriggerUSec=1705323000000000\n"
        "ActiveState=" = "active") ∧
    Timers.parse_timer_info "LoadState=not-found\n" "missing.timer" =
      .error (.notFound "missing.timer") :=
  ⟨by rfl,
   (C9_timer_info_enabled_and_notfound
      "Id=test.timer\nLoadState=loaded\nUnitFileState=enabled\nActiveState=active\nNextElapseUSecRealtime=1705324800000000\nLastTriggerUSec=1705323000000000\n"
      "test.timer").1
     { name := "test.timer", enabled := true,
       schedule := "Schedule not available",
       next_run := some "1705324800000000",
       last_trigger := some "1705323000000000", service := "test.service" }
     (by rfl),
   (C9_timer_info_enabled_and_notfound "LoadState=not-found\n" "missing.timer").2
     (by rfl)⟩

/-- C4: `parse_logs` succeeds exactly when every non-empty (trimmed) line of
its input is valid JSON — one bad line fails the whole call — while
`parse_journal_entries` never fails: it returns `Ok` with exactly the entries
of the lines that deserialize, skipping the rest. -/
theorem C4_strict_logs_lenient_journal :
    (∀ (output : String) (now : Int × Nat),
      (Services.parse_logs output now).isOk =
        (rustLines output).all (fun l =>
          strIsEmpty (strTrim l) || (jsonFromStr (strTrim l)).isSome)) ∧
    (∀ output : String,
      Timers.parse_journal_entries output =
        .ok ((rustLines output).filterMap (fun l =>
          if strIsEmpty (strTrim l) then none
          else Timers.journalEntryFromStr (strTrim l)))) := by
  constructor
  · intro output now
    unfold Services.parse_logs
    generalize rustLines output = ls
    induction ls with
    | nil => rfl
    | cons l rest ih =>
      simp only [Services.parse_logs_go, List.all_cons]
      cases hemp : strIsEmpty (strTrim l) with
      | true => simp [hemp, ih]
      | false =>
        simp only [hemp, Bool.false_eq_true, if_false, Bool.false_or, reduceIte]
        cases hj : jsonFromStr (strTrim l) with
        | none => simp [Except.isOk, Except.toBool]
        | some j =>
          cases hgo : Services.parse_logs_go now rest with
          | error e => rw [hgo] at ih; simp [← ih, Except.isOk, Except.toBool]
          | ok tail => rw [hgo] at ih; simp [← ih, Except.isOk, Except.toBool]
  · intro output
    unfold Timers.parse_journal_entries
    have : ∀ ls : List String, Timers.parse_journal_entries_go ls =
        ls.filterMap (fun l =>
          if strIsEmpty (strTrim l) then none
          else Timers.journalEntryFromStr (strTrim l)) := by
      intro ls
      induction ls with
      | nil => rfl
      | cons l rest ih =>
        simp only [Timers.parse_journal_entries_go, List.filterMap_cons]
        cases hemp : strIsEmpty (strTrim l) with
        | true => simp [hemp, ih]
        | false =>
          simp only [hemp, Bool.false_eq_true, if_false, reduceIte]
          cases hj : Timers.journalEntryFromStr (strTrim l) with
          | none => simp [ih]
          | some entry => simp [ih]
    rw [this]

/-- C10: when the `journalctl` invocation behind `get_logs` exits non-zero,
a stderr containing `"No journal files were found"` or `"No entries"` turns
the failure into an empty success; any other non-zero exit yields exactly the
mapped `journalctl` error (so never an empty list). -/
theorem C10_get_logs_missing_journal_tolerated (ex : Services.Executor)
    (name : String) (lines : Nat) (now : Int × Nat) (out : Services.CommandOutput)
    (hval : Services.validate_service_name name = .ok ())
    (hex : ex "journalctl"
      ["-u", name, "-n", toString lines, "--no-pager", "--output=json"] = .ok out)
    (hnz : out.exit_code ≠ 0) :
    ((strHas out.stderr "No journal files were found" ||
        strHas out.stderr "No entries") = true →
      (Services.get_logs ex name lines now).1 = .ok []) ∧
    ((strHas out.stderr "No journal files were found" ||
        strHas out.stderr "No entries") = false →
      (Services.get_logs ex name lines now).1 =
        .error (Services.parse_journalctl_error out)) := by
  unfold Services.get_logs
  rw [hval]
  dsimp only
  rw [hex]
  dsimp only
  rw [if_pos hnz]
  constructor
  · intro hmark
    rw [if_pos hmark]
  · intro hmark
    rw [if_neg (by simp [hmark])]

/-- Witness for C10: a `journalctl` run that exits 1 with `"No entries"`. -/
theorem C10_get_logs_missing_journal_tolerated_witness :
    (Services.get_logs c10Executor "nginx.service" 50 (0, 0)).1 = .ok [] :=
  (C10_get_logs_missing_journal_tolerated c10Executor "nginx.service" 50 (0, 0)
    c10Out rfl rfl (by decide)).1 (by rfl)

/-- C3 counterexample: the claim's static exit-code table does not govern the
timer operations. With every command exiting 5 (the code the claim maps to
`NotFound`), `run_timer` returns `CommandFailed` carrying command, stderr and
exit code — not `NotFound`. -/
theorem C3_run_timer_counterexample :
    (Timers.run_timer c3Executor "t.timer" false).1 =
      .error (.commandFailed "systemctl start t.service" "boom" (some 5)) :=
  rfl

/-- C3 (amended): the services crate's `start`/`stop`/`restart` follow the
static table (`0 ↦ success`, `4 ↦ PermissionDenied`, `5 ↦ NotFound`, other
non-zero ↦ `CommandFailed{command, exit_code, stderr}`), but the timer
operations map every non-zero exit code — including 4 and 5 — to
`CommandFailed` for the failing step's command: `run_timer` on its single
command, and the two-step `enable_timer` (`enable` then `start`) and
`disable_timer` (`stop` then `disable`) on whichever step exits non-zero
first; both steps exiting zero is success. -/
theorem C3_exit_code_mapping :
    (∀ (ex : Services.Executor) (name : String) (out : Services.CommandOutput),
      Services.validate_service_name name = .ok () →
      ex "systemctl" ["start", name] = .ok out →
      (Services.start_service ex name).1 =
        (if out.exit_code = 0 then .ok ()
         else if out.exit_code = 4 then .error (.permissionDenied out.stderr)
         else if out.exit_code = 5 then .error (.serviceNotFound out.stderr)
         else .error (.commandFailed "systemctl" out.exit_code out.stderr))) ∧
    (∀ (ex : Services.Executor) (name : String) (out : Services.CommandOutput),
      Services.validate_service_name name = .ok () →
      ex "systemctl" ["stop", name] = .ok out →
      (Services.stop_service ex name).1 =
        (if out.exit_code = 0 then .ok ()
         else if out.exit_code = 4 then .error (.permissionDenied out.stderr)
         else if out.exit_code = 5 then .error (.serviceNotFound out.stderr)
         else .error (.commandFailed "systemctl" out.exit_code out.stderr))) ∧
    (∀ (ex : Services.Executor) (name : String) (out : Services.CommandOutput),
      Services.validate_service_name name = .ok () →
      ex "systemctl" ["restart", name] = .ok out →
      (Services.restart_service ex name).1 =
        (if out.exit_code = 0 then .ok ()
         else if out.exit_code = 4 then .error (.permissionDenied out.stderr)
         else if out.exit_code = 5 then .error (.serviceNotFound out.stderr)
         else .error (.commandFailed "systemctl" out.exit_code out.stderr))) ∧
    (∀ (ex : Timers.Executor) (name svc : String) (outT : Timers.CommandOutput)
       (tm : Bool),
      Timers.validate_timer_name name = .ok () →
      Timers.timer_to_service name = .ok svc →
      ex "systemctl" ["start", "--no-block", svc] = .ok outT →
      (Timers.run_timer ex name tm).1 =
        (if outT.exit_code = 0 then .ok ()
         else .error (.commandFailed ("systemctl start " ++ svc) outT.stderr
           (some outT.exit_code)))) ∧
    (∀ (ex : Timers.Executor) (name : String) (out1 out2 : Timers.CommandOutput),
      Timers.validate_timer_name name = .ok () →
      ex "systemctl" ["enable", name] = .ok out1 →
      ex "systemctl" ["start", name] = .ok out2 →
      (Timers.enable_timer ex name).1 =
        (if out1.exit_code = 0 then
          (if out2.exit_code = 0 then .ok ()
           else .error (.commandFailed ("systemctl start " ++ name) out2.stderr
             (some out2.exit_code)))
         else .error (.commandFailed ("systemctl enable " ++ name) out1.stderr
           (some out1.exit_code)))) ∧
    (∀ (ex : Timers.Executor) (name : String) (out1 out2 : Timers.CommandOutput),
      Timers.validate_timer_name name = .ok () →
      ex "systemctl" ["stop", name] = .ok out1 →
      ex "systemctl" ["disable", name] = .ok out2 →
      (Timers.disable_timer ex name).1 =
        (if out1.exit_code = 0 then
          (if out2.exit_code = 0 then .ok ()
           else .error (.commandFailed ("systemctl disable " ++ name) out2.stderr
             (some out2.exit_code)))
         else .error (.commandFailed ("systemctl stop " ++ name) out1.stderr
           (some out1.exit_code)))) := by
  have hsvc : ∀ out : Services.CommandOutput, out.exit_code ≠ 0 →
      Services.parse_systemctl_error out =
        (if out.exit_code = 4 then .permissionDenied out.stderr
         else if out.exit_code = 5 then .serviceNotFound out.stderr
         else .commandFailed "systemctl" out.exit_code out.stderr) := by
    intro out _
    rfl
  refine ⟨?_, ?_, ?_, ?_, ?_, ?_⟩
  · intro ex name out hval hex
    unfold Services.start_service
    rw [hval]
    dsimp only
    rw [hex]
    dsimp only
    by_cases h0 : out.exit_code = 0
    · rw [if_neg (by simp [h0]), if_pos h0]
    · rw [if_pos h0, if_neg h0, hsvc out h0]
      split <;> first
        | rfl
        | (split <;> rfl)
  · intro ex name out hval hex
    unfold Services.stop_service
    rw [hval]
    dsimp only
    rw [hex]
    dsimp only
    by_cases h0 : out.exit_code = 0
    · rw [if_neg (by simp [h0]), if_pos h0]
    · rw [if_pos h0, if_neg h0, hsvc out h0]
      split <;> first
        | rfl
        | (split <;> rfl)
  · intro ex name out hval hex
    unfold Services.restart_service
    rw [hval]
    dsimp only
    rw [hex]
    dsimp only
    by_cases h0 : out.exit_code = 0
    · rw [if_neg (by simp [h0]), if_pos h0]
    · rw [if_pos h0, if_neg h0, hsvc out h0]
      split <;> first
        | rfl
        | (split <;> rfl)
  · intro ex name svc outT tm hval hts hex
    unfold Timers.run_timer
    rw [hval]
    dsimp only
    rw [hts]
    dsimp only
    rw [hex]
    dsimp only
    by_cases h0 : outT.exit_code = 0
    · rw [if_neg (by simp [h0]), if_pos h0]
    · rw [if_pos h0, if_neg h0]
  · intro ex name out1 out2 hval hex1 hex2
    unfold Timers.enable_timer
    rw [hval]
    dsimp only
    rw [hex1]
    dsimp only
    by_cases h1 : out1.exit_code = 0
    · rw [if_neg (by simp [h1]), if_pos h1]
      rw [hex2]
      dsimp only
      by_cases h2 : out2.exit_code = 0
      · rw [if_neg (by simp [h2]), if_pos h2]
      · rw [if_pos h2, if_neg h2]
    · rw [if_pos h1, if_neg h1]
  · intro ex name out1 out2 hval hex1 hex2
    unfold Timers.disable_timer
    rw [hval]
    dsimp only
    rw [hex1]
    dsimp only
    by_cases h1 : out1.exit_code = 0
    · rw [if_neg (by simp [h1]), if_pos h1]
      rw [hex2]
      dsimp only
      by_cases h2 : out2.exit_code = 0
      · rw [if_neg (by simp [h2]), if_pos h2]
      · rw [if_pos h2, if_neg h2]
    · rw [if_pos h1, if_neg h1]

/-- Witness for C3 (amended): a services `start` answered with exit code 4
maps to `PermissionDenied`; a timer `enable` whose first step exits 5 maps to
`CommandFailed` for the `enable` command. -/
theorem C3_exit_code_mapping_witness :
    (Services.start_service c3wExecutor "nginx.service").1 =
      .error (.permissionDenied "denied") ∧
    (Timers.enable_timer c3Executor "t.timer").1 =
      .error (.commandFailed "systemctl enable t.timer" "boom" (some 5)) := by
  constructor
  · have h := C3_exit_code_mapping.1 c3wExecutor "nginx.service" c3wOut rfl rfl
    rw [h]
    rfl
  · have h := C3_exit_code_mapping.2.2.2.2.1 c3Executor "t.timer"
      { stdout := "", stderr := "boom", exit_code := 5 }
      { stdout := "", stderr := "boom", exit_code := 5 } rfl rfl rfl
    rw [h]
    rfl

/-- C1 counterexample, in two parts. (1) `"foo bar.timer"` carries embedded
whitespace, yet the timer validator accepts it — its deny-set has no space or
tab. (2) The execution-history operation performs no validation at all: for
the identifier `"a;b.service"` (which contains `';'`) it still invokes the
process executor, with the identifier embedded in the argument vector. -/
theorem C1_validator_counterexample :
    Timers.validate_timer_name "foo bar.timer" = .ok () ∧
    (Timers.get_execution_history c1Executor "a;b.service" 10).2 =
      [("journalctl",
        ["-u", "a;b.service", "--since", "7 days ago", "-o", "json", "--no-pager"])] :=
  ⟨rfl, rfl⟩

theorem validate_service_name_rejects (name : String) (c : Char)
    (hc : c ∈ name.toList) (hbad : Services.isServiceNameChar c = false) :
    isInvalidServiceNameErr (Services.validate_service_name name) = true := by
  unfold Services.validate_service_name
  by_cases h1 : strIsEmpty name
  · rw [if_pos h1]; rfl
  · rw [if_neg h1]
    by_cases h2 : name.toList.contains ' '
    · rw [if_pos h2]; rfl
    · rw [if_neg h2]
      have h3 : name.toList.all Services.isServiceNameChar = false := by
        by_contra hall
        rw [Bool.not_eq_false] at hall
        have := List.all_eq_true.mp hall c hc
        rw [hbad] at this
        exact Bool.false_ne_true this
      rw [if_pos (show ¬ name.toList.all Services.isServiceNameChar = true by
        rw [h3]; exact Bool.false_ne_true)]
      rfl

theorem validate_timer_name_rejects (name : String) (c : Char)
    (hc : c ∈ name.toList) (hd : c ∈ Timers.timerDenyChars) :
    isInvalidInputErr (Timers.validate_timer_name name) = true := by
  unfold Timers.validate_timer_name
  by_cases h1 : strIsEmpty name
  · rw [if_pos h1]; rfl
  · rw [if_neg h1]
    have h2 : name.toList.any (fun x => Timers.timerDenyChars.contains x) = true :=
      List.any_eq_true.mpr ⟨c, hc, by simpa using hd⟩
    rw [if_pos h2]
    rfl

/-- C1 (amended): identifiers containing any of `;`, `|`, `` ` ``, `$`, `&`
are rejected by both validators, and every validated client operation
(service status, start, stop, restart, logs; timer info, run, enable,
disable) performs no process invocation for them. Embedded whitespace is
rejected by the service-name validator (with the same no-invocation
consequence), but the timer validator's deny-set covers only `\n`/`\r` among
whitespace. The execution-history and execution-detail operations validate
nothing and always invoke the log reader exactly once, for any identifier. -/
theorem C1_injection_guard (name : String) (c : Char) (hc : c ∈ name.toList) :
    (c ∈ injectionChars →
      isInvalidServiceNameErr (Services.validate_service_name name) = true ∧
      isInvalidInputErr (Timers.validate_timer_name name) = true) ∧
    (c.isWhitespace = true →
      isInvalidServiceNameErr (Services.validate_service_name name) = true) ∧
    ((isInvalidServiceNameErr (Services.validate_service_name name) = true →
      ∀ (exS : Services.Executor) (lines : Nat) (now : Int) (nw : Int × Nat),
        (Services.get_service_status exS name now).2 = [] ∧
        (Services.start_service exS name).2 = [] ∧
        (Services.stop_service exS name).2 = [] ∧
        (Services.restart_service exS name).2 = [] ∧
        (Services.get_logs exS name lines nw).2 = []) ∧
     (isInvalidInputErr (Timers.validate_timer_name name) = true →
      ∀ (exT : Timers.Executor) (tm : Bool),
        (Timers.get_timer_info exT name).2 = [] ∧
        (Timers.run_timer exT name tm).2 = [] ∧
        (Timers.enable_timer exT name).2 = [] ∧
        (Timers.disable_timer exT name).2 = [])) ∧
    (∀ (exT : Timers.Executor) (limit : Nat) (invocation_id : String),
      (Timers.get_execution_history exT name limit).2 =
        [("journalctl", Timers.historyArgs name)] ∧
      (Timers.get_execution_details exT name invocation_id).2 =
        [("journalctl", Timers.detailsArgs name invocation_id)]) := by
  refine ⟨?_, ?_, ⟨?_, ?_⟩, ?_⟩
  · intro hinj
    constructor
    · refine validate_service_name_rejects name c hc ?_
      fin_cases hinj <;> rfl
    · refine validate_timer_name_rejects name c hc ?_
      fin_cases hinj <;> decide
  · intro hws
    refine validate_service_name_rejects name c hc ?_
    have hcase : ((c = ' ' ∨ c = '\t') ∨ c = '\x0d') ∨ c = '\n' := by
      simpa [Char.isWhitespace] using hws
    rcases hcase with ((rfl | rfl) | rfl) | rfl <;> rfl
  · intro hrej exS lines now nw
    obtain ⟨e, he⟩ : ∃ e, Services.validate_service_name name = .error e := by
      cases hv : Services.validate_service_name name with
      | error e => exact ⟨e, rfl⟩
      | ok u =>
        rw [hv] at hrej
        exact absurd hrej (by simp [isInvalidServiceNameErr])
    refine ⟨?_, ?_, ?_, ?_, ?_⟩ <;>
      simp [Services.get_service_status, Services.start_service,
        Services.stop_service, Services.restart_service, Services.get_logs, he]
  · intro hrej exT tm
    obtain ⟨e, he⟩ : ∃ e, Timers.validate_timer_name name = .error e := by
      cases hv : Timers.validate_timer_name name with
      | error e => exact ⟨e, rfl⟩
      | ok u =>
        rw [hv] at hrej
        exact absurd hrej (by simp [isInvalidInputErr])
    refine ⟨?_, ?_, ?_, ?_⟩ <;>
      simp [Timers.get_timer_info, Timers.run_timer, Timers.enable_timer,
        Timers.disable_timer, he]
  · intro exT limit invocation_id
    constructor
    · unfold Timers.get_execution_history
      cases hx : exT "journalctl" (Timers.historyArgs name) with
      | error e => rfl
      | ok out => rfl
    · unfold Timers.get_execution_details
      cases hx : exT "journalctl" (Timers.detailsArgs name invocation_id) with
      | error e => rfl
      | ok out => rfl

/-- Witness for C1 (amended) at `name = "a;b"`, whose `';'` is an injection
metacharacter, instantiating the rejection and the no-invocation parts. -/
theorem C1_injection_guard_witness :
    isInvalidServiceNameErr (Services.validate_service_name "a;b") = true ∧
    isInvalidInputErr (Timers.validate_timer_name "a;b") = true ∧
    (Services.start_service (fun _ _ => .ok c3wOut) "a;b").2 = [] ∧
    (Timers.run_timer c1Executor "a;b" false).2 = [] := by
  have h := C1_injection_guard "a;b" ';' (by decide)
  obtain ⟨hrej, _, ⟨hS, hT⟩, _⟩ := h
  obtain ⟨hs, ht⟩ := hrej (by decide)
  exact ⟨hs, ht, ((hS hs (fun _ _ => .ok c3wOut) 0 0 (0, 0)).2.1),
    ((hT ht c1Executor false).2.1)⟩

end TscPlugins
